import Mathlib

/-!
Verification of the FalseMarkets trading core: a shallow embedding in Lean 4 of
the SMA-crossover backtest simulator, fitness scorer and evolutionary
selection/breeding engine (src/lib/backtest.ts and the generation-cycle code),
with theorems settling the spec claims.

Modelling conventions:
* JavaScript numbers are modelled as exact rationals (ℚ).
* JS Math.round, Number.toFixed(n): round half toward +infinity, i.e. ⌊x + 1/2⌋.
* Math.tanh and Math.sqrt are transcendental; they are passed as explicit
  function parameters (tanhF, sqrtF); theorems assume only the properties of
  the real functions they stand for (e.g. 0 ≤ tanh x < 1 for x ≥ 0).
* Math.random is modelled as an explicit stream of draws rand : ℕ → ℚ,
  consumed in source order (the spec's required injectable-generator hook).
-/

namespace FalseMarkets

/-- JS Math.round / the rounding used by Number.toFixed: round half toward +∞. -/
def jsRound (x : ℚ) : ℤ := ⌊x + 1/2⌋

/-- `+x.toFixed(n)`: round to `n` decimal places. -/
def roundTo (n : ℕ) (x : ℚ) : ℚ := (jsRound (x * 10 ^ n) : ℚ) / 10 ^ n

theorem jsRound_mono {x y : ℚ} (h : x ≤ y) : jsRound x ≤ jsRound y :=
  Int.floor_le_floor (by linarith)

theorem jsRound_intCast (n : ℤ) : jsRound (n : ℚ) = n := by
  unfold jsRound
  rw [add_comm, Int.floor_add_int]
  norm_num

theorem roundTo_zero (n : ℕ) : roundTo n 0 = 0 := by
  unfold roundTo jsRound
  norm_num

/-- Rounding to one decimal place keeps a value of `[0, 100]` inside `[0, 100]`. -/
theorem roundTo_one_bounds {y : ℚ} (h0 : 0 ≤ y) (h1 : y ≤ 100) :
    0 ≤ roundTo 1 y ∧ roundTo 1 y ≤ 100 := by
  unfold roundTo
  constructor
  · apply div_nonneg _ (by norm_num)
    have h := jsRound_mono (show (0 : ℚ) ≤ y * 10 ^ 1 by positivity)
    rw [show ((0 : ℚ)) = ((0 : ℤ) : ℚ) by norm_num, jsRound_intCast] at h
    exact_mod_cast h
  · rw [div_le_iff (by norm_num)]
    have h := jsRound_mono (show y * 10 ^ 1 ≤ ((1000 : ℤ) : ℚ) by push_cast; linarith)
    rw [jsRound_intCast] at h
    have : (jsRound (y * 10 ^ 1) : ℚ) ≤ 1000 := by exact_mod_cast h
    linarith

-- ─── GenomeCodec (src/lib/backtest.ts, genome decoders) ──────────────────────

/-- `decodeFastMA(v) = Math.max(5, Math.round(5 + v * 45))` — 5–50 days. -/
def decodeFastMA (v : ℚ) : ℤ := max 5 (jsRound (5 + v * 45))

/-- `decodeSlowMA(v) = Math.max(20, Math.round(20 + v * 180))` — 20–200 days. -/
def decodeSlowMA (v : ℚ) : ℤ := max 20 (jsRound (20 + v * 180))

/-- `decodeAssetIdx(v) = Math.min(27, Math.max(0, Math.round(v * 27)))`. -/
def decodeAssetIdx (v : ℚ) : ℤ := min 27 (max 0 (jsRound (v * 27)))

/-- The spec's asset-index decoder, written from the spec's words:
"decodeAssetIndex(v) = round(v·(N-1)) clamped to [0, N-1], mapping to one of
N configured symbols".  Stated for a symbol table of `N` symbols, to be
compared against the source's `decodeAssetIdx`. -/
def specDecodeAssetIndex (N : ℕ) (v : ℚ) : ℤ :=
  min ((N : ℤ) - 1) (max 0 (jsRound (v * ((N : ℚ) - 1))))

/-- Simulator period correction (src/lib/backtest.ts, runBacktest):
`if (fastP >= slowP) slowP = fastP + Math.max(10, Math.ceil(fastP * 0.25))`. -/
def correctedSlowP (fastP slowP : ℤ) : ℤ :=
  if slowP ≤ fastP then fastP + max 10 ⌈(fastP : ℚ) * (1/4)⌉ else slowP

inductive Archetype
  | momentum | defensive | volatility | meanReversion | hybrid
  deriving DecidableEq, Repr

/-- `archetypeFromGenome` (src/lib/backtest.ts). -/
def archetypeFromGenome (fastMAv slowMAv : ℚ) : Archetype :=
  let f := decodeFastMA fastMAv
  let s := decodeSlowMA slowMAv
  let spread := s - f
  if f ≤ 10 ∧ spread ≤ 25 then .momentum
  else if 130 ≤ s then .defensive
  else if spread ≤ 15 then .volatility
  else if 25 ≤ f ∧ 80 ≤ s then .meanReversion
  else .hybrid

-- ─── FitnessScorer (src/lib/backtest.ts, computeFitness) ─────────────────────

/-- `computeFitness(sharpe, totalReturnPct, winRatePct, maxDrawdownPct)`:
normalise each metric to `[0,1]`, weight 0.40/0.30/0.20/0.10, clamp to `[0,1]`,
scale to `[0,100]` and round to one decimal. -/
def computeFitness (sharpe totalReturnPct winRatePct maxDrawdownPct : ℚ) : ℚ :=
  let sNorm := (min (max sharpe (-2)) 4 + 2) / 6
  let rNorm := (min (max totalReturnPct (-50)) 150 + 50) / 200
  let wNorm := winRatePct / 100
  let dNorm := 1 - min (max maxDrawdownPct 0) 60 / 60
  let raw := 40/100 * sNorm + 30/100 * rNorm + 20/100 * wNorm + 10/100 * dNorm
  roundTo 1 (min (max raw 0) 1 * 100)

/-- The walk-forward consistency factor (src/lib/backtest.ts, runBacktest):
0.50 if the second-half return is below -20 %, 0.75 if below -5 %, else 1. -/
def consistencyFactor (year2Ret : ℚ) : ℚ :=
  if year2Ret < -(1/5) then 1/2
  else if year2Ret < -(1/20) then 3/4
  else 1

-- ─── Niche-crowding selection penalty (generation-cycle code) ────────────────

/-- The niche-crowding penalty as a function of an asset's population share:
`share > 0.40 ? Math.min(0.25, ((share - 0.40) / 0.60) * 0.25) : 0`. -/
def nichePenalty (share : ℚ) : ℚ :=
  if 2/5 < share then min (1/4) ((share - 2/5) / (3/5) * (1/4)) else 0

theorem nichePenalty_nonneg {s : ℚ} (h : 0 ≤ s) : 0 ≤ nichePenalty s := by
  unfold nichePenalty
  split
  · apply le_min (by norm_num)
    have : (0 : ℚ) ≤ s - 2/5 := by linarith
    positivity
  · exact le_refl 0

theorem nichePenalty_le {s : ℚ} : nichePenalty s ≤ 1/4 := by
  unfold nichePenalty
  split
  · exact min_le_left _ _
  · norm_num

theorem nichePenalty_mono {s t : ℚ} (h : s ≤ t) : nichePenalty s ≤ nichePenalty t := by
  unfold nichePenalty
  rcases lt_or_le (2/5 : ℚ) s with hs | hs
  · rw [if_pos hs, if_pos (lt_of_lt_of_le hs h)]
    apply min_le_min (le_refl _)
    have : s - 2/5 ≤ t - 2/5 := by linarith
    apply mul_le_mul_of_nonneg_right _ (by norm_num)
    apply div_le_div_of_nonneg_right this (by norm_num)
  · rw [if_neg (not_lt.mpr hs)]
    split
    · apply le_min (by norm_num)
      have h1 : (2/5 : ℚ) < t := by assumption
      have : (0 : ℚ) ≤ t - 2/5 := by linarith
      positivity
    · exact le_refl 0

-- ─── BacktestSimulator data model (src/lib/backtest.ts) ──────────────────────

/-- One daily price bar.  Only `date` and `close` are read by the simulator. -/
structure Bar where
  date : String
  close : ℚ
  deriving DecidableEq, Repr

inductive SignalAction
  | entry | exit
  deriving DecidableEq, Repr

/-- A golden (entry) or death (exit) cross signal. -/
structure TradeSignal where
  date : String
  price : ℚ
  action : SignalAction
  exposure : ℚ
  deriving DecidableEq, Repr

structure EquityPoint where
  date : String
  equity : ℚ
  deriving DecidableEq, Repr

structure BacktestResult where
  totalReturn : ℚ
  sharpe : ℚ
  maxDrawdown : ℚ
  winRate : ℚ
  trades : ℕ
  fitness : ℚ
  equityCurve : List EquityPoint
  tradeSignals : List TradeSignal
  fastPeriod : ℤ
  slowPeriod : ℤ
  asset : String
  deriving DecidableEq, Repr

/-- `computeSMA(prices, period)`: `null` for the first `period - 1` indices,
then the arithmetic mean of the trailing `period` prices (the source computes
the window sums via prefix sums; the value is the same). -/
def computeSMA (prices : List ℚ) (period : ℕ) : List (Option ℚ) :=
  (List.range prices.length).map fun i =>
    if i + 1 < period then none
    else some ((((prices.drop (i + 1 - period)).take period).sum) / period)

/-- The mutable loop state of `runBacktest`'s bar walk.  The source pushes to
the end of its arrays; here the list accumulators (`equityCurve`,
`tradeSignals`, `dailyReturns`) are kept newest-first and reversed when the
result is assembled — the standard fold idiom for array pushes. -/
structure SimState where
  cash : ℚ
  position : ℚ
  currentExposure : ℚ
  entryEquity : ℚ
  wins : ℕ
  losses : ℕ
  equityCurve : List EquityPoint
  tradeSignals : List TradeSignal
  dailyReturns : List ℚ
  prevF : Option ℚ
  prevS : Option ℚ
  peak : ℚ
  maxDD : ℚ
  deriving DecidableEq, Repr

def simInit (initialCapital : ℚ) : SimState :=
  { cash := initialCapital, position := 0, currentExposure := 0, entryEquity := 0,
    wins := 0, losses := 0, equityCurve := [], tradeSignals := [], dailyReturns := [],
    prevF := none, prevS := none, peak := initialCapital, maxDD := 0 }

/-- Target exposure fraction at a bar where both SMAs are defined:
`fast > slow ? (1 - riskAversion) * tanh(((fast-slow)/slow) * 15) * 0.99 : 0`. -/
def targetExposureQ (tanhF : ℚ → ℚ) (riskAversion f s : ℚ) : ℚ :=
  if s < f then (1 - riskAversion) * tanhF ((f - s) / s * 15) * (99/100) else 0

/-- Mark-to-market bookkeeping at the top of each loop iteration: daily return
(skipped on day 0, i.e. while the equity curve is empty), equity-curve point
(rounded to 2 decimals as `+equity.toFixed(2)`), running peak and drawdown. -/
def markToMarket (st : SimState) (date : String) (equity : ℚ) : SimState :=
  let st1 :=
    match st.equityCurve.head? with
    | none => st
    | some p =>
        { st with dailyReturns := ((equity - p.equity) / p.equity) :: st.dailyReturns }
  let st2 := { st1 with equityCurve := EquityPoint.mk date (roundTo 2 equity) :: st1.equityCurve }
  let peak := if st2.peak < equity then equity else st2.peak
  let dd := if 0 < peak then (peak - equity) / peak * 100 else 0
  { st2 with peak := peak, maxDD := if st2.maxDD < dd then dd else st2.maxDD }

/-- Golden-cross / death-cross detection against the previous bar's SMAs. -/
def applySignals (tanhF : ℚ → ℚ) (riskAversion : ℚ) (st : SimState)
    (date : String) (price f s : ℚ) : SimState :=
  match st.prevF, st.prevS with
  | some pf, some ps =>
      if s < f ∧ pf ≤ ps then
        let tgt := (1 - riskAversion) * tanhF ((f - s) / s * 15) * (99/100)
        { st with tradeSignals :=
            TradeSignal.mk date price SignalAction.entry (roundTo 4 tgt) :: st.tradeSignals }
      else if f ≤ s ∧ ps < pf then
        { st with tradeSignals := TradeSignal.mk date price SignalAction.exit 0 :: st.tradeSignals }
      else st
  | _, _ => st

/-- Rebalancing: skip when `|Δexposure| ≤ 0.01` (leaving `currentExposure`
untouched, as the source `continue`s), otherwise buy or sell the delta, detect
a full exit below 0.5 % of equity and record the win/loss, then recompute
`currentExposure = position * price / max(equity, 1)`. -/
def rebalance (st : SimState) (equity price tgt : ℚ) : SimState :=
  if |tgt - st.currentExposure| ≤ 1/100 then st
  else
    let targetUnits := equity * tgt / price
    let delta := targetUnits - st.position
    let st' :=
      if 0 < delta then
        let cost := min (delta * price) st.cash
        let actualUnits := cost / price
        let stb := { st with position := st.position + actualUnits, cash := st.cash - cost }
        if st.currentExposure = 0 then { stb with entryEquity := equity } else stb
      else if delta < 0 then
        let actualUnits := min |delta| st.position
        let proceeds := actualUnits * price
        let sts := { st with position := st.position - actualUnits, cash := st.cash + proceeds }
        if sts.position * price < equity * (5/1000) then
          let exitEquity := sts.cash + sts.position * price
          let sts2 :=
            if sts.entryEquity < exitEquity then { sts with wins := sts.wins + 1 }
            else { sts with losses := sts.losses + 1 }
          { sts2 with position := 0, cash := exitEquity }
        else sts
      else st
    { st' with currentExposure := st'.position * price / max equity 1 }

/-- One iteration of the bar loop.  The second component carries this bar's
fast and slow SMA values (`null` during the warm-up window). -/
def stepBar (tanhF : ℚ → ℚ) (riskAversion : ℚ)
    (st : SimState) (x : Bar × Option ℚ × Option ℚ) : SimState :=
  let price := x.1.close
  let equity := st.cash + st.position * price
  let st1 := markToMarket st x.1.date equity
  match x.2.1, x.2.2 with
  | some f, some s =>
      let st2 := applySignals tanhF riskAversion st1 x.1.date price f s
      let st3 := { st2 with prevF := some f, prevS := some s }
      rebalance st3 equity price (targetExposureQ tanhF riskAversion f s)
  | fo, so => { st1 with prevF := fo, prevS := so }

/-- The bars zipped with their per-index fast and slow SMA values. -/
def zippedBars (bars : List Bar) (fastP slowP : ℕ) : List (Bar × Option ℚ × Option ℚ) :=
  bars.zip ((computeSMA (bars.map Bar.close) fastP).zip (computeSMA (bars.map Bar.close) slowP))

/-- The loop state after processing the first `k` bars. -/
def simUpTo (tanhF : ℚ → ℚ) (riskAversion : ℚ) (initialCapital : ℚ)
    (zl : List (Bar × Option ℚ × Option ℚ)) (k : ℕ) : SimState :=
  (zl.take k).foldl (stepBar tanhF riskAversion) (simInit initialCapital)

-- ─── runBacktest: metric assembly after the loop ─────────────────────────────

def btFinalEquity (st : SimState) (closes : List ℚ) : ℚ :=
  st.cash + st.position * closes.getLastD 0

def btTotalReturn (finalEquity initialCapital : ℚ) : ℚ :=
  (finalEquity - initialCapital) / initialCapital * 100

/-- Annualised Sharpe: 0 when fewer than 3 daily returns or zero std. -/
def btSharpe (sqrtF : ℚ → ℚ) (drs : List ℚ) : ℚ :=
  if 2 < drs.length then
    let n : ℚ := drs.length
    let mean := drs.sum / n
    let variance := (drs.map fun r => (r - mean) ^ 2).sum / n
    let std := sqrtF variance
    if 0 < std then mean / std * sqrtF 252 else 0
  else 0

/-- `winRate = wins/(wins+losses) * 100`, or 0 when no completed round-trips. -/
def btWinRate (wins losses : ℕ) : ℚ :=
  if 0 < wins + losses then (wins : ℚ) / ((wins : ℚ) + (losses : ℚ)) * 100 else 0

/-- Second-half return: equity-curve value at the midpoint index versus final
equity; 0 when the midpoint equity is not positive. -/
def btYear2Ret (finalEquity initialCapital : ℚ) (curve : List EquityPoint) : ℚ :=
  let midEquity :=
    match curve.get? (curve.length / 2) with
    | some p => p.equity
    | none => initialCapital
  if 0 < midEquity then (finalEquity - midEquity) / midEquity else 0

/-- The loop state after walking all bars, with the periods decoded and
corrected as in the source. -/
def btFinalState (tanhF : ℚ → ℚ) (bars : List Bar)
    (fastMAv slowMAv riskAversion initialCapital : ℚ) : SimState :=
  let fastP := decodeFastMA fastMAv
  let slowP := correctedSlowP fastP (decodeSlowMA slowMAv)
  simUpTo tanhF riskAversion initialCapital (zippedBars bars fastP.toNat slowP.toNat)
    bars.length

/-- The composite fitness before the anti-overfitting penalty
(`baseFitness = computeFitness(sharpe, totalReturn, winRate, maxDD)`). -/
def btBaseFitness (tanhF sqrtF : ℚ → ℚ) (bars : List Bar)
    (fastMAv slowMAv riskAversion initialCapital : ℚ) : ℚ :=
  let st := btFinalState tanhF bars fastMAv slowMAv riskAversion initialCapital
  computeFitness (btSharpe sqrtF st.dailyReturns.reverse)
    (btTotalReturn (btFinalEquity st (bars.map Bar.close)) initialCapital)
    (btWinRate st.wins st.losses) st.maxDD

/-- The second-half (walk-forward) return of a run. -/
def btYear2Return (tanhF : ℚ → ℚ) (bars : List Bar)
    (fastMAv slowMAv riskAversion initialCapital : ℚ) : ℚ :=
  let st := btFinalState tanhF bars fastMAv slowMAv riskAversion initialCapital
  btYear2Ret (btFinalEquity st (bars.map Bar.close)) initialCapital st.equityCurve.reverse

/-- `runBacktest(bars, fastMAv, slowMAv, riskAversion, initialCapital)`
(src/lib/backtest.ts).  Returns `none` when fewer than 50 bars are supplied.
`tanhF` and `sqrtF` stand for `Math.tanh` and `Math.sqrt`. -/
def runBacktest (tanhF sqrtF : ℚ → ℚ) (bars : List Bar)
    (fastMAv slowMAv riskAversion initialCapital : ℚ) : Option BacktestResult :=
  if bars.length < 50 then none
  else
    let fastP := decodeFastMA fastMAv
    let slowP := correctedSlowP fastP (decodeSlowMA slowMAv)
    let final := btFinalState tanhF bars fastMAv slowMAv riskAversion initialCapital
    let totalReturn := btTotalReturn (btFinalEquity final (bars.map Bar.close)) initialCapital
    let sharpe := btSharpe sqrtF final.dailyReturns.reverse
    let winRate := btWinRate final.wins final.losses
    let baseFitness := btBaseFitness tanhF sqrtF bars fastMAv slowMAv riskAversion initialCapital
    let year2Ret := btYear2Return tanhF bars fastMAv slowMAv riskAversion initialCapital
    let fitness := roundTo 1 (baseFitness * consistencyFactor year2Ret)
    some { totalReturn := roundTo 2 totalReturn
           sharpe := roundTo 3 sharpe
           maxDrawdown := roundTo 2 final.maxDD
           winRate := roundTo 1 winRate
           trades := final.wins + final.losses
           fitness := fitness
           equityCurve := final.equityCurve.reverse
           tradeSignals := final.tradeSignals.reverse
           fastPeriod := fastP
           slowPeriod := slowP
           asset := "BTC" }

-- ─── EvolutionEngine data model (src/data/types.ts, generation-cycle code) ───

inductive AgentStatus
  | active | extinct | breeding | newborn
  deriving DecidableEq, Repr

/-- The four normalised SMA-strategy genes. -/
structure SMAGenome where
  fastMA : ℚ
  slowMA : ℚ
  riskAversion : ℚ
  assetIdx : ℚ
  deriving DecidableEq, Repr

/-- An agent (`AgentGenome` in src/data/types.ts).  The id is modelled as the
numeric part of the source's `"AGT-xxx"` string id. -/
structure Agent where
  id : ℕ
  name : String
  generation : ℕ
  fitness : ℚ
  status : AgentStatus
  archetype : Archetype
  sharpe : ℚ
  maxDrawdown : ℚ
  winRate : ℚ
  totalReturn : ℚ
  trades : ℕ
  parentIds : List ℕ
  genome : SMAGenome
  deriving DecidableEq, Repr

def isAlive (a : Agent) : Bool := a.status ≠ AgentStatus.extinct

def clamp01 (v : ℚ) : ℚ := min 1 (max 0 v)

/-- `crossoverMutate(p1, p2, rand)` (src/lib/backtest.ts): uniform blend plus
±12 % mutation noise per gene; the asset gene is inherited from one parent
with probability 0.75, else fully re-randomised.  The random stream positions
follow JS evaluation order: asset draws `k, k+1`; fastMA `k+2, k+3`;
slowMA `k+4, k+5`; riskAversion `k+6, k+7`. -/
def crossoverMutate (rand : ℕ → ℚ) (k : ℕ) (p1 p2 : SMAGenome) : SMAGenome :=
  let MUT : ℚ := 12/100
  let blend := fun (a b r s : ℚ) => clamp01 (a + (b - a) * r + (s - 1/2) * 2 * MUT)
  let assetIdx :=
    if rand k < 3/4 then (if rand (k + 1) < 1/2 then p1.assetIdx else p2.assetIdx)
    else rand (k + 1)
  { fastMA := blend p1.fastMA p2.fastMA (rand (k + 2)) (rand (k + 3))
    slowMA := blend p1.slowMA p2.slowMA (rand (k + 4)) (rand (k + 5))
    riskAversion := blend p1.riskAversion p2.riskAversion (rand (k + 6)) (rand (k + 7))
    assetIdx := clamp01 assetIdx }

/-- Modelled from the spec: the static symbol table (`TOP_15` in
src/lib/priceData.ts, a file absent from the repository snapshot) mapping a
decoded asset index to one of the configured symbols; it is passed here as the
configuration list `symbols` (spec §6: "A symbol table mapping
assetIndex -> symbol -> display label (static configuration)").  The
display-label table is likewise absent; the `asset` field is modelled as the
symbol itself. -/
def assetSymbol (symbols : List String) (assetIdxV : ℚ) : String :=
  symbols.getD (decodeAssetIdx assetIdxV).toNat "BTC"

def BACKTEST_BARS : ℕ := 730

/-- `backtestAgent(agent, priceHistory)` (src/lib/backtest.ts): skip when the
symbol has fewer than 50 bars, else backtest the most recent 730 bars. -/
def backtestAgent (tanhF sqrtF : ℚ → ℚ) (symbols : List String)
    (priceHistory : String → List Bar) (a : Agent) : Option BacktestResult :=
  let sym := assetSymbol symbols a.genome.assetIdx
  let allBars := priceHistory sym
  if allBars.length < 50 then none
  else
    let bars := allBars.drop (allBars.length - BACKTEST_BARS)
    (runBacktest tanhF sqrtF bars a.genome.fastMA a.genome.slowMA
      a.genome.riskAversion 100000).map fun r => { r with asset := sym }

/-- The metric refresh `{ ...agent, fitness: r.fitness, sharpe: +r.sharpe.toFixed(2), ... }`
applied to an agent after a successful backtest. -/
def applyResult (a : Agent) (r : BacktestResult) : Agent :=
  { a with fitness := r.fitness, sharpe := roundTo 2 r.sharpe,
           maxDrawdown := roundTo 1 r.maxDrawdown, winRate := roundTo 1 r.winRate,
           totalReturn := roundTo 1 r.totalReturn, trades := r.trades }

-- ─── Niche-crowding selection fitness (generation-cycle code, step 2) ────────

/-- `backtested.filter(a => newResults[a.id]).length || 1`. -/
def scoredCount (newResults : ℕ → Option BacktestResult) (backtested : List Agent) : ℕ :=
  max (backtested.countP fun b => (newResults b.id).isSome) 1

/-- The fraction of scored agents whose backtest traded the given asset. -/
def assetShare (newResults : ℕ → Option BacktestResult) (backtested : List Agent)
    (asset : String) : ℚ :=
  ((backtested.countP fun b =>
      match newResults b.id with
      | some rb => rb.asset = asset
      | none => false) : ℚ) / (scoredCount newResults backtested : ℚ)

/-- The selection-only fitness: stored fitness discounted by the niche-crowding
penalty of the agent's traded asset; agents without a fresh result keep their
stored fitness. -/
def nicheSelectFitness (newResults : ℕ → Option BacktestResult)
    (backtested : List Agent) (a : Agent) : ℚ :=
  match newResults a.id with
  | none => a.fitness
  | some r => a.fitness * (1 - nichePenalty (assetShare newResults backtested r.asset))

-- ─── Generation cycle, steps 1–5 (generation-cycle code) ─────────────────────

def BREED_PREFIXES : List String :=
  ["Alpha","Beta","Gamma","Delta","Sigma","Omega","Apex","Vega","Rho","Theta",
   "Nova","Flux","Prime","Quant","Edge","Nexus","Pulse","Blaze","Cipher","Drift"]

def BREED_SUFFIXES : List String :=
  ["Hunter","Rider","Surge","Strike","Hawk","Wolf","Storm","Pulse","Wave","Blade",
   "Force","Shift","Crest","Scout","Guard","Run","Burst","Fade","Watch","Climb"]

/-- `Math.max(1, Math.floor(n * 0.20))`. -/
def cullCountOf (n : ℕ) : ℕ := max 1 (n / 5)

/-- Construction of the `i`-th offspring: two parents drawn uniformly (with
replacement) from the breeding pool, crossover + mutation, then a random breed
name.  Each offspring consumes 12 stream draws (2 parent picks, 8 in
`crossoverMutate`, 2 name picks).  Indexing an empty breeding pool yields
`none` (the source dereferences `undefined` there). -/
def mkOffspringOne (rand : ℕ → ℚ) (topBreed : List Agent)
    (maxId currentGen : ℕ) (i : ℕ) : Option Agent := do
  let base := i * 12
  let p1 ← topBreed.get? (⌊rand base * (topBreed.length : ℚ)⌋).toNat
  let p2 ← topBreed.get? (⌊rand (base + 1) * (topBreed.length : ℚ)⌋).toNat
  let g := crossoverMutate rand (base + 2) p1.genome p2.genome
  let px := BREED_PREFIXES.getD (⌊rand (base + 10) * (BREED_PREFIXES.length : ℚ)⌋).toNat ""
  let sx := BREED_SUFFIXES.getD (⌊rand (base + 11) * (BREED_SUFFIXES.length : ℚ)⌋).toNat ""
  some { id := maxId + i + 1, name := px ++ " " ++ sx, generation := currentGen + 1,
         fitness := 50, status := AgentStatus.newborn,
         archetype := archetypeFromGenome g.fastMA g.slowMA,
         sharpe := 0, maxDrawdown := 0, winRate := 0, totalReturn := 0, trades := 0,
         parentIds := [p1.id, p2.id], genome := g }

structure GenOutcome where
  backtested : List Agent
  sorted : List Agent
  cullCount : ℕ
  bottom : List Agent
  topBreed : List Agent
  avgBefore : ℚ
  offspring : List Agent
  survived : List Agent
  allNext : List Agent
  deriving Repr

/-- Steps 1–5 of `runGeneration` (backtest all active agents, rank by
niche-penalised selection fitness, cull the bottom 20 %, breed `cullCount`
offspring from the top 30 %, re-backtest the offspring, assemble the next
generation).  Returns `none` when offspring construction fails, which happens
exactly when the breeding pool is empty — there the source dereferences
`undefined` and its try/catch reports a failed generation.  The source's
`avgBefore` divides by `sorted.length` (NaN in JS for an empty population;
division by zero yields 0 in ℚ).  Persistence and UI state (steps 6–9) are
outside the claims' scope. -/
def runGenerationCore (tanhF sqrtF : ℚ → ℚ) (symbols : List String)
    (priceHistory : String → List Bar) (rand : ℕ → ℚ) (currentGen : ℕ)
    (agents : List Agent) : Option GenOutcome :=
  let active := agents.filter isAlive
  let btPairs := active.map fun a =>
    match backtestAgent tanhF sqrtF symbols priceHistory a with
    | some r => (applyResult a r, some r)
    | none => (a, none)
  let backtested := btPairs.map Prod.fst
  let newResults : ℕ → Option BacktestResult := fun idn =>
    (btPairs.find? fun p => p.1.id = idn).bind Prod.snd
  let sorted := backtested.mergeSort fun a b =>
    decide (nicheSelectFitness newResults backtested b ≤
            nicheSelectFitness newResults backtested a)
  let cullCount := cullCountOf sorted.length
  let bottom := sorted.drop (sorted.length - cullCount)
  let topBreed := sorted.take (max 2 (3 * sorted.length / 10))
  let cullIds := bottom.map Agent.id
  let avgBefore := (sorted.map Agent.fitness).sum / (sorted.length : ℚ)
  let maxId := (agents.map Agent.id).foldr max 0
  match (List.range cullCount).mapM (mkOffspringOne rand topBreed maxId currentGen) with
  | none => none
  | some raw =>
    let offspring := raw.map fun a =>
      match backtestAgent tanhF sqrtF symbols priceHistory a with
      | some r => applyResult a r
      | none => a
    let survived := agents.map fun a =>
      if cullIds.contains a.id then { a with status := AgentStatus.extinct }
      else
        let status := if a.status = AgentStatus.newborn then AgentStatus.active else a.status
        match backtested.find? fun b => b.id = a.id with
        | some bt => { bt with status := status }
        | none => { a with status := status }
    let allNext := survived ++ offspring
    some { backtested := backtested, sorted := sorted, cullCount := cullCount,
           bottom := bottom, topBreed := topBreed, avgBefore := avgBefore,
           offspring := offspring, survived := survived, allNext := allNext }



-- ─── Named intermediates of the generation cycle (the `let`s of
-- `runGenerationCore`, named for reasoning) ──────────────────────────────────

def genActive (agents : List Agent) : List Agent := agents.filter isAlive

def genBtPairs (tanhF sqrtF : ℚ → ℚ) (symbols : List String)
    (priceHistory : String → List Bar) (agents : List Agent) :
    List (Agent × Option BacktestResult) :=
  (genActive agents).map fun a =>
    match backtestAgent tanhF sqrtF symbols priceHistory a with
    | some r => (applyResult a r, some r)
    | none => (a, none)

def genBacktested (tanhF sqrtF : ℚ → ℚ) (symbols : List String)
    (priceHistory : String → List Bar) (agents : List Agent) : List Agent :=
  (genBtPairs tanhF sqrtF symbols priceHistory agents).map Prod.fst

def genNewResults (tanhF sqrtF : ℚ → ℚ) (symbols : List String)
    (priceHistory : String → List Bar) (agents : List Agent) :
    ℕ → Option BacktestResult := fun idn =>
  ((genBtPairs tanhF sqrtF symbols priceHistory agents).find? fun p => p.1.id = idn).bind
    Prod.snd

def genSorted (tanhF sqrtF : ℚ → ℚ) (symbols : List String)
    (priceHistory : String → List Bar) (agents : List Agent) : List Agent :=
  (genBacktested tanhF sqrtF symbols priceHistory agents).mergeSort fun a b =>
    decide (nicheSelectFitness (genNewResults tanhF sqrtF symbols priceHistory agents)
              (genBacktested tanhF sqrtF symbols priceHistory agents) b ≤
            nicheSelectFitness (genNewResults tanhF sqrtF symbols priceHistory agents)
              (genBacktested tanhF sqrtF symbols priceHistory agents) a)

def genCullCount (tanhF sqrtF : ℚ → ℚ) (symbols : List String)
    (priceHistory : String → List Bar) (agents : List Agent) : ℕ :=
  cullCountOf (genSorted tanhF sqrtF symbols priceHistory agents).length

def genBottom (tanhF sqrtF : ℚ → ℚ) (symbols : List String)
    (priceHistory : String → List Bar) (agents : List Agent) : List Agent :=
  (genSorted tanhF sqrtF symbols priceHistory agents).drop
    ((genSorted tanhF sqrtF symbols priceHistory agents).length -
      genCullCount tanhF sqrtF symbols priceHistory agents)

def genTopBreed (tanhF sqrtF : ℚ → ℚ) (symbols : List String)
    (priceHistory : String → List Bar) (agents : List Agent) : List Agent :=
  (genSorted tanhF sqrtF symbols priceHistory agents).take
    (max 2 (3 * (genSorted tanhF sqrtF symbols priceHistory agents).length / 10))

def genCullIds (tanhF sqrtF : ℚ → ℚ) (symbols : List String)
    (priceHistory : String → List Bar) (agents : List Agent) : List ℕ :=
  (genBottom tanhF sqrtF symbols priceHistory agents).map Agent.id

def genMaxId (agents : List Agent) : ℕ := (agents.map Agent.id).foldr max 0

def genSurvivedOne (tanhF sqrtF : ℚ → ℚ) (symbols : List String)
    (priceHistory : String → List Bar) (agents : List Agent) (a : Agent) : Agent :=
  if (genCullIds tanhF sqrtF symbols priceHistory agents).contains a.id then
    { a with status := AgentStatus.extinct }
  else
    let status := if a.status = AgentStatus.newborn then AgentStatus.active else a.status
    match (genBacktested tanhF sqrtF symbols priceHistory agents).find?
        fun b => b.id = a.id with
    | some bt => { bt with status := status }
    | none => { a with status := status }

def genSurvived (tanhF sqrtF : ℚ → ℚ) (symbols : List String)
    (priceHistory : String → List Bar) (agents : List Agent) : List Agent :=
  agents.map (genSurvivedOne tanhF sqrtF symbols priceHistory agents)

def genOffspringOne (tanhF sqrtF : ℚ → ℚ) (symbols : List String)
    (priceHistory : String → List Bar) (a : Agent) : Agent :=
  match backtestAgent tanhF sqrtF symbols priceHistory a with
  | some r => applyResult a r
  | none => a

def genOffspring (tanhF sqrtF : ℚ → ℚ) (symbols : List String)
    (priceHistory : String → List Bar) (raw : List Agent) : List Agent :=
  raw.map (genOffspringOne tanhF sqrtF symbols priceHistory)

def genAvgBefore (tanhF sqrtF : ℚ → ℚ) (symbols : List String)
    (priceHistory : String → List Bar) (agents : List Agent) : ℚ :=
  ((genSorted tanhF sqrtF symbols priceHistory agents).map Agent.fitness).sum /
    ((genSorted tanhF sqrtF symbols priceHistory agents).length : ℚ)

def witnessAgents10 : List Agent :=
  (List.range 10).map fun i =>
    { id := i + 1, name := "w", generation := 0, fitness := 50,
      status := AgentStatus.active, archetype := Archetype.hybrid, sharpe := 0,
      maxDrawdown := 0, winRate := 0, totalReturn := 0, trades := 0,
      parentIds := [], genome := ⟨0, 0, 0, 0⟩ }


-- ─── Concrete run for the C5 fitness-consistency analysis ──────────────────
-- A 60-bar series: 30 bars at 100, 10 at 200, 20 at 10.  With fastMA = slowMA
-- = riskAversion = 0 (periods 5/20) the strategy enters at the jump and is
-- flattened after the crash, losing 47.025 % — all of it in the second half.
-- `cexTanh`/`cexSqrt` are admissible stand-ins for Math.tanh / Math.sqrt
-- (constant 1/2 and constant 0); the claim under test quantifies over them.
-- The loop is evaluated in six 10-bar chunks (`cexZl0..5`, states
-- `cexTau1..6`), each checked by the kernel.

def cexTanh : ℚ → ℚ := fun _ => 1/2

def cexSqrt : ℚ → ℚ := fun _ => 0

def cexBars : List Bar :=
  ((List.range 30).map fun i => Bar.mk (toString i) 100)
  ++ ((List.range 10).map fun i => Bar.mk (toString (30 + i)) 200)
  ++ ((List.range 20).map fun i => Bar.mk (toString (40 + i)) 10)

def cexZl0 : List (Bar × Option ℚ × Option ℚ) :=
  [(Bar.mk "0" (100), none, none), (Bar.mk "1" (100), none, none), (Bar.mk "2" (100), none, none), (Bar.mk "3" (100), none, none), (Bar.mk "4" (100), some (100), none), (Bar.mk "5" (100), some (100), none), (Bar.mk "6" (100), some (100), none), (Bar.mk "7" (100), some (100), none), (Bar.mk "8" (100), some (100), none), (Bar.mk "9" (100), some (100), none)]

def cexZl1 : List (Bar × Option ℚ × Option ℚ) :=
  [(Bar.mk "10" (100), some (100), none), (Bar.mk "11" (100), some (100), none), (Bar.mk "12" (100), some (100), none), (Bar.mk "13" (100), some (100), none), (Bar.mk "14" (100), some (100), none), (Bar.mk "15" (100), some (100), none), (Bar.mk "16" (100), some (100), none), (Bar.mk "17" (100), some (100), none), (Bar.mk "18" (100), some (100), none), (Bar.mk "19" (100), some (100), some (100))]

def cexZl2 : List (Bar × Option ℚ × Option ℚ) :=
  [(Bar.mk "20" (100), some (100), some (100)), (Bar.mk "21" (100), some (100), some (100)), (Bar.mk "22" (100), some (100), some (100)), (Bar.mk "23" (100), some (100), some (100)), (Bar.mk "24" (100), some (100), some (100)), (Bar.mk "25" (100), some (100), some (100)), (Bar.mk "26" (100), some (100), some (100)), (Bar.mk "27" (100), some (100), some (100)), (Bar.mk "28" (100), some (100), some (100)), (Bar.mk "29" (100), some (100), some (100))]

def cexZl3 : List (Bar × Option ℚ × Option ℚ) :=
  [(Bar.mk "30" (200), some (120), some (105)), (Bar.mk "31" (200), some (140), some (110)), (Bar.mk "32" (200), some (160), some (115)), (Bar.mk "33" (200), some (180), some (120)), (Bar.mk "34" (200), some (200), some (125)), (Bar.mk "35" (200), some (200), some (130)), (Bar.mk "36" (200), some (200), some (135)), (Bar.mk "37" (200), some (200), some (140)), (Bar.mk "38" (200), some (200), some (145)), (Bar.mk "39" (200), some (200), some (150))]

def cexZl4 : List (Bar × Option ℚ × Option ℚ) :=
  [(Bar.mk "40" (10), some (162), some (291/2)), (Bar.mk "41" (10), some (124), some (141)), (Bar.mk "42" (10), some (86), some (273/2)), (Bar.mk "43" (10), some (48), some (132)), (Bar.mk "44" (10), some (10), some (255/2)), (Bar.mk "45" (10), some (10), some (123)), (Bar.mk "46" (10), some (10), some (237/2)), (Bar.mk "47" (10), some (10), some (114)), (Bar.mk "48" (10), some (10), some (219/2)), (Bar.mk "49" (10), some (10), some (105))]

def cexZl5 : List (Bar × Option ℚ × Option ℚ) :=
  [(Bar.mk "50" (10), some (10), some (191/2)), (Bar.mk "51" (10), some (10), some (86)), (Bar.mk "52" (10), some (10), some (153/2)), (Bar.mk "53" (10), some (10), some (67)), (Bar.mk "54" (10), some (10), some (115/2)), (Bar.mk "55" (10), some (10), some (48)), (Bar.mk "56" (10), some (10), some (77/2)), (Bar.mk "57" (10), some (10), some (29)), (Bar.mk "58" (10), some (10), some (39/2)), (Bar.mk "59" (10), some (10), some (10))]

def cexTau1 : SimState :=
  { cash := 100000, position := 0, currentExposure := 0, entryEquity := 0, wins := 0, losses := 0, equityCurve := [EquityPoint.mk "9" (100000), EquityPoint.mk "8" (100000), EquityPoint.mk "7" (100000), EquityPoint.mk "6" (100000), EquityPoint.mk "5" (100000), EquityPoint.mk "4" (100000), EquityPoint.mk "3" (100000), EquityPoint.mk "2" (100000), EquityPoint.mk "1" (100000), EquityPoint.mk "0" (100000)], tradeSignals := [], dailyReturns := [0, 0, 0, 0, 0, 0, 0, 0, 0], prevF := some (100), prevS := none, peak := 100000, maxDD := 0 }

def cexTau2 : SimState :=
  { cash := 100000, position := 0, currentExposure := 0, entryEquity := 0, wins := 0, losses := 0, equityCurve := [EquityPoint.mk "19" (100000), EquityPoint.mk "18" (100000), EquityPoint.mk "17" (100000), EquityPoint.mk "16" (100000), EquityPoint.mk "15" (100000), EquityPoint.mk "14" (100000), EquityPoint.mk "13" (100000), EquityPoint.mk "12" (100000), EquityPoint.mk "11" (100000), EquityPoint.mk "10" (100000), EquityPoint.mk "9" (100000), EquityPoint.mk "8" (100000), EquityPoint.mk "7" (100000), EquityPoint.mk "6" (100000), EquityPoint.mk "5" (100000), EquityPoint.mk "4" (100000), EquityPoint.mk "3" (100000), EquityPoint.mk "2" (100000), EquityPoint.mk "1" (100000), EquityPoint.mk "0" (100000)], tradeSignals := [], dailyReturns := [0, 0, 0, 0, 0, 0, 0, 0, 0, 0, 0, 0, 0, 0, 0, 0, 0, 0, 0], prevF := some (100), prevS := some (100), peak := 100000, maxDD := 0 }

def cexTau3 : SimState :=
  { cash := 100000, position := 0, currentExposure := 0, entryEquity := 0, wins := 0, losses := 0, equityCurve := [EquityPoint.mk "29" (100000), EquityPoint.mk "28" (100000), EquityPoint.mk "27" (100000), EquityPoint.mk "26" (100000), EquityPoint.mk "25" (100000), EquityPoint.mk "24" (100000), EquityPoint.mk "23" (100000), EquityPoint.mk "22" (100000), EquityPoint.mk "21" (100000), EquityPoint.mk "20" (100000), EquityPoint.mk "19" (100000), EquityPoint.mk "18" (100000), EquityPoint.mk "17" (100000), EquityPoint.mk "16" (100000), EquityPoint.mk "15" (100000), EquityPoint.mk "14" (100000), EquityPoint.mk "13" (100000), EquityPoint.mk "12" (100000), EquityPoint.mk "11" (100000), EquityPoint.mk "10" (100000), EquityPoint.mk "9" (100000), EquityPoint.mk "8" (100000), EquityPoint.mk "7" (100000), EquityPoint.mk "6" (100000), EquityPoint.mk "5" (100000), EquityPoint.mk "4" (100000), EquityPoint.mk "3" (100000), EquityPoint.mk "2" (100000), EquityPoint.mk "1" (100000), EquityPoint.mk "0" (100000)], tradeSignals := [], dailyReturns := [0, 0, 0, 0, 0, 0, 0, 0, 0, 0, 0, 0, 0, 0, 0, 0, 0, 0, 0, 0, 0, 0, 0, 0, 0, 0, 0, 0, 0], prevF := some (100), prevS := some (100), peak := 100000, maxDD := 0 }

def cexTau4 : SimState :=
  { cash := 50500, position := 495/2, currentExposure := 99/200, entryEquity := 100000, wins := 0, losses := 0, equityCurve := [EquityPoint.mk "39" (100000), EquityPoint.mk "38" (100000), EquityPoint.mk "37" (100000), EquityPoint.mk "36" (100000), EquityPoint.mk "35" (100000), EquityPoint.mk "34" (100000), EquityPoint.mk "33" (100000), EquityPoint.mk "32" (100000), EquityPoint.mk "31" (100000), EquityPoint.mk "30" (100000), EquityPoint.mk "29" (100000), EquityPoint.mk "28" (100000), EquityPoint.mk "27" (100000), EquityPoint.mk "26" (100000), EquityPoint.mk "25" (100000), EquityPoint.mk "24" (100000), EquityPoint.mk "23" (100000), EquityPoint.mk "22" (100000), EquityPoint.mk "21" (100000), EquityPoint.mk "20" (100000), EquityPoint.mk "19" (100000), EquityPoint.mk "18" (100000), EquityPoint.mk "17" (100000), EquityPoint.mk "16" (100000), EquityPoint.mk "15" (100000), EquityPoint.mk "14" (100000), EquityPoint.mk "13" (100000), EquityPoint.mk "12" (100000), EquityPoint.mk "11" (100000), EquityPoint.mk "10" (100000), EquityPoint.mk "9" (100000), EquityPoint.mk "8" (100000), EquityPoint.mk "7" (100000), EquityPoint.mk "6" (100000), EquityPoint.mk "5" (100000), EquityPoint.mk "4" (100000), EquityPoint.mk "3" (100000), EquityPoint.mk "2" (100000), EquityPoint.mk "1" (100000), EquityPoint.mk "0" (100000)], tradeSignals := [TradeSignal.mk "30" (200) SignalAction.entry (99/200)], dailyReturns := [0, 0, 0, 0, 0, 0, 0, 0, 0, 0, 0, 0, 0, 0, 0, 0, 0, 0, 0, 0, 0, 0, 0, 0, 0, 0, 0, 0, 0, 0, 0, 0, 0, 0, 0, 0, 0, 0, 0], prevF := some (200), prevS := some (150), peak := 100000, maxDD := 0 }

def cexTau5 : SimState :=
  { cash := 52975, position := 0, currentExposure := 0, entryEquity := 100000, wins := 0, losses := 1, equityCurve := [EquityPoint.mk "49" (52975), EquityPoint.mk "48" (52975), EquityPoint.mk "47" (52975), EquityPoint.mk "46" (52975), EquityPoint.mk "45" (52975), EquityPoint.mk "44" (52975), EquityPoint.mk "43" (52975), EquityPoint.mk "42" (52975), EquityPoint.mk "41" (52975), EquityPoint.mk "40" (52975), EquityPoint.mk "39" (100000), EquityPoint.mk "38" (100000), EquityPoint.mk "37" (100000), EquityPoint.mk "36" (100000), EquityPoint.mk "35" (100000), EquityPoint.mk "34" (100000), EquityPoint.mk "33" (100000), EquityPoint.mk "32" (100000), EquityPoint.mk "31" (100000), EquityPoint.mk "30" (100000), EquityPoint.mk "29" (100000), EquityPoint.mk "28" (100000), EquityPoint.mk "27" (100000), EquityPoint.mk "26" (100000), EquityPoint.mk "25" (100000), EquityPoint.mk "24" (100000), EquityPoint.mk "23" (100000), EquityPoint.mk "22" (100000), EquityPoint.mk "21" (100000), EquityPoint.mk "20" (100000), EquityPoint.mk "19" (100000), EquityPoint.mk "18" (100000), EquityPoint.mk "17" (100000), EquityPoint.mk "16" (100000), EquityPoint.mk "15" (100000), EquityPoint.mk "14" (100000), EquityPoint.mk "13" (100000), EquityPoint.mk "12" (100000), EquityPoint.mk "11" (100000), EquityPoint.mk "10" (100000), EquityPoint.mk "9" (100000), EquityPoint.mk "8" (100000), EquityPoint.mk "7" (100000), EquityPoint.mk "6" (100000), EquityPoint.mk "5" (100000), EquityPoint.mk "4" (100000), EquityPoint.mk "3" (100000), EquityPoint.mk "2" (100000), EquityPoint.mk "1" (100000), EquityPoint.mk "0" (100000)], tradeSignals := [TradeSignal.mk "41" (10) SignalAction.exit (0), TradeSignal.mk "30" (200) SignalAction.entry (99/200)], dailyReturns := [0, 0, 0, 0, 0, 0, 0, 0, 0, -1881/4000, 0, 0, 0, 0, 0, 0, 0, 0, 0, 0, 0, 0, 0, 0, 0, 0, 0, 0, 0, 0, 0, 0, 0, 0, 0, 0, 0, 0, 0, 0, 0, 0, 0, 0, 0, 0, 0, 0, 0], prevF := some (10), prevS := some (105), peak := 100000, maxDD := 1881/40 }

def cexTau6 : SimState :=
  { cash := 52975, position := 0, currentExposure := 0, entryEquity := 100000, wins := 0, losses := 1, equityCurve := [EquityPoint.mk "59" (52975), EquityPoint.mk "58" (52975), EquityPoint.mk "57" (52975), EquityPoint.mk "56" (52975), EquityPoint.mk "55" (52975), EquityPoint.mk "54" (52975), EquityPoint.mk "53" (52975), EquityPoint.mk "52" (52975), EquityPoint.mk "51" (52975), EquityPoint.mk "50" (52975), EquityPoint.mk "49" (52975), EquityPoint.mk "48" (52975), EquityPoint.mk "47" (52975), EquityPoint.mk "46" (52975), EquityPoint.mk "45" (52975), EquityPoint.mk "44" (52975), EquityPoint.mk "43" (52975), EquityPoint.mk "42" (52975), EquityPoint.mk "41" (52975), EquityPoint.mk "40" (52975), EquityPoint.mk "39" (100000), EquityPoint.mk "38" (100000), EquityPoint.mk "37" (100000), EquityPoint.mk "36" (100000), EquityPoint.mk "35" (100000), EquityPoint.mk "34" (100000), EquityPoint.mk "33" (100000), EquityPoint.mk "32" (100000), EquityPoint.mk "31" (100000), EquityPoint.mk "30" (100000), EquityPoint.mk "29" (100000), EquityPoint.mk "28" (100000), EquityPoint.mk "27" (100000), EquityPoint.mk "26" (100000), EquityPoint.mk "25" (100000), EquityPoint.mk "24" (100000), EquityPoint.mk "23" (100000), EquityPoint.mk "22" (100000), EquityPoint.mk "21" (100000), EquityPoint.mk "20" (100000), EquityPoint.mk "19" (100000), EquityPoint.mk "18" (100000), EquityPoint.mk "17" (100000), EquityPoint.mk "16" (100000), EquityPoint.mk "15" (100000), EquityPoint.mk "14" (100000), EquityPoint.mk "13" (100000), EquityPoint.mk "12" (100000), EquityPoint.mk "11" (100000), EquityPoint.mk "10" (100000), EquityPoint.mk "9" (100000), EquityPoint.mk "8" (100000), EquityPoint.mk "7" (100000), EquityPoint.mk "6" (100000), EquityPoint.mk "5" (100000), EquityPoint.mk "4" (100000), EquityPoint.mk "3" (100000), EquityPoint.mk "2" (100000), EquityPoint.mk "1" (100000), EquityPoint.mk "0" (100000)], tradeSignals := [TradeSignal.mk "41" (10) SignalAction.exit (0), TradeSignal.mk "30" (200) SignalAction.entry (99/200)], dailyReturns := [0, 0, 0, 0, 0, 0, 0, 0, 0, 0, 0, 0, 0, 0, 0, 0, 0, 0, 0, -1881/4000, 0, 0, 0, 0, 0, 0, 0, 0, 0, 0, 0, 0, 0, 0, 0, 0, 0, 0, 0, 0, 0, 0, 0, 0, 0, 0, 0, 0, 0, 0, 0, 0, 0, 0, 0, 0, 0, 0, 0], prevF := some (10), prevS := some (10), peak := 100000, maxDD := 1881/40 }

set_option maxRecDepth 8000 in
unseal Rat.add Rat.mul Rat.sub Rat.inv in
theorem cexSeg0_eq : List.foldl (stepBar cexTanh 0) (simInit 100000) cexZl0 = cexTau1 := by
  decide

set_option maxRecDepth 8000 in
unseal Rat.add Rat.mul Rat.sub Rat.inv in
theorem cexSeg1_eq : List.foldl (stepBar cexTanh 0) cexTau1 cexZl1 = cexTau2 := by
  decide

set_option maxRecDepth 8000 in
unseal Rat.add Rat.mul Rat.sub Rat.inv in
theorem cexSeg2_eq : List.foldl (stepBar cexTanh 0) cexTau2 cexZl2 = cexTau3 := by
  decide

set_option maxRecDepth 8000 in
unseal Rat.add Rat.mul Rat.sub Rat.inv in
theorem cexSeg3_eq : List.foldl (stepBar cexTanh 0) cexTau3 cexZl3 = cexTau4 := by
  decide

set_option maxRecDepth 8000 in
unseal Rat.add Rat.mul Rat.sub Rat.inv in
theorem cexSeg4_eq : List.foldl (stepBar cexTanh 0) cexTau4 cexZl4 = cexTau5 := by
  decide

set_option maxRecDepth 8000 in
unseal Rat.add Rat.mul Rat.sub Rat.inv in
theorem cexSeg5_eq : List.foldl (stepBar cexTanh 0) cexTau5 cexZl5 = cexTau6 := by
  decide

set_option maxRecDepth 8000 in
unseal Rat.add Rat.mul Rat.sub Rat.inv in
theorem cexZip_eq :
    (zippedBars cexBars (decodeFastMA 0).toNat
        (correctedSlowP (decodeFastMA 0) (decodeSlowMA 0)).toNat).take cexBars.length =
      cexZl0 ++ (cexZl1 ++ (cexZl2 ++ (cexZl3 ++ (cexZl4 ++ cexZl5)))) := by
  decide

theorem cexFinalState_eq :
    btFinalState cexTanh cexBars 0 0 0 100000 = cexTau6 := by
  show simUpTo cexTanh 0 100000 _ _ = _
  unfold simUpTo
  rw [cexZip_eq, List.foldl_append, List.foldl_append, List.foldl_append,
    List.foldl_append, List.foldl_append,
    cexSeg0_eq, cexSeg1_eq, cexSeg2_eq, cexSeg3_eq, cexSeg4_eq, cexSeg5_eq]

set_option maxRecDepth 8000 in
unseal Rat.add Rat.mul Rat.sub Rat.inv in
theorem cexBase_eq :
    btBaseFitness cexTanh cexSqrt cexBars 0 0 0 100000 = 159/10 := by
  unfold btBaseFitness
  rw [cexFinalState_eq]
  decide

set_option maxRecDepth 8000 in
unseal Rat.add Rat.mul Rat.sub Rat.inv in
theorem cexY2_eq :
    btYear2Return cexTanh cexBars 0 0 0 100000 = -1881/4000 := by
  unfold btYear2Return
  rw [cexFinalState_eq]
  decide

theorem cexFitness_eq :
    (runBacktest cexTanh cexSqrt cexBars 0 0 0 100000).map BacktestResult.fitness = some 8 := by
  unfold runBacktest
  rw [if_neg (by decide), cexBase_eq, cexY2_eq]
  norm_num [consistencyFactor, roundTo, jsRound]

-- ═══ Claim theorems ═══

-- ─── C6 ──────────────────────────────────────────────────────────────────────

/-- C6: for all finite input metrics, `computeFitness` returns a value in
`[0, 100]`. -/
theorem computeFitness_in_range (s r w d : ℚ) :
    0 ≤ computeFitness s r w d ∧ computeFitness s r w d ≤ 100 := by
  unfold computeFitness
  apply roundTo_one_bounds
  · have h := le_max_right (40/100 * ((min (max s (-2)) 4 + 2) / 6) +
      30/100 * ((min (max r (-50)) 150 + 50) / 200) + 20/100 * (w / 100) +
      10/100 * (1 - min (max d 0) 60 / 60)) 0
    have h1 : (0:ℚ) ≤ min (max (40/100 * ((min (max s (-2)) 4 + 2) / 6) +
      30/100 * ((min (max r (-50)) 150 + 50) / 200) + 20/100 * (w / 100) +
      10/100 * (1 - min (max d 0) 60 / 60)) 0) 1 := le_min h zero_le_one
    linarith
  · have h := min_le_right (max (40/100 * ((min (max s (-2)) 4 + 2) / 6) +
      30/100 * ((min (max r (-50)) 150 + 50) / 200) + 20/100 * (w / 100) +
      10/100 * (1 - min (max d 0) 60 / 60)) 0) 1
    linarith

-- ─── C7 ──────────────────────────────────────────────────────────────────────

/-- C7: for every genome with gene values in `[0, 1]`, the decoded periods
satisfy `fastPeriod < slowPeriod` after the simulator correction. -/
theorem decoded_periods_fast_lt_slow (fv sv : ℚ)
    (hf0 : 0 ≤ fv) (hf1 : fv ≤ 1) (hs0 : 0 ≤ sv) (hs1 : sv ≤ 1) :
    decodeFastMA fv < correctedSlowP (decodeFastMA fv) (decodeSlowMA sv) := by
  unfold correctedSlowP
  split
  · have h10 : (10 : ℤ) ≤ max 10 ⌈(decodeFastMA fv : ℚ) * (1/4)⌉ := le_max_left _ _
    omega
  · omega

/-- Witness for C7 at `fv = sv = 1/2`. -/
theorem decoded_periods_fast_lt_slow_witness :
    (0 ≤ (1:ℚ)/2 ∧ (1:ℚ)/2 ≤ 1) ∧
      decodeFastMA (1/2) < correctedSlowP (decodeFastMA (1/2)) (decodeSlowMA (1/2)) :=
  ⟨⟨by norm_num, by norm_num⟩,
   decoded_periods_fast_lt_slow (1/2) (1/2) (by norm_num) (by norm_num) (by norm_num)
     (by norm_num)⟩

-- ─── C4 ──────────────────────────────────────────────────────────────────────

/-- C4 (amended): for every gene value in `[0, 1]`, `decodeAssetIdx` equals the
spec's `round(v·(N-1))`-clamped-to-`[0, N-1]` formula for `N = 28` symbols, and
lands in `[0, 27]`.  (The in-repo `AgentGenome` doc instead documents a
25-symbol table, for which the formula disagrees — see the counterexample.) -/
theorem decodeAssetIdx_matches_28_symbols (v : ℚ) (h0 : 0 ≤ v) (h1 : v ≤ 1) :
    decodeAssetIdx v = specDecodeAssetIndex 28 v ∧
      0 ≤ decodeAssetIdx v ∧ decodeAssetIdx v ≤ 27 := by
  refine ⟨?_, le_min (by norm_num) (le_max_left 0 _), min_le_left _ _⟩
  unfold decodeAssetIdx specDecodeAssetIndex
  norm_num

/-- Witness for C4's amended claim at `v = 1/2`. -/
theorem decodeAssetIdx_matches_28_symbols_witness :
    (0 ≤ (1:ℚ)/2 ∧ (1:ℚ)/2 ≤ 1) ∧
      (decodeAssetIdx (1/2) = specDecodeAssetIndex 28 (1/2) ∧
        0 ≤ decodeAssetIdx (1/2) ∧ decodeAssetIdx (1/2) ≤ 27) :=
  ⟨⟨by norm_num, by norm_num⟩,
   decodeAssetIdx_matches_28_symbols (1/2) (by norm_num) (by norm_num)⟩

/-- C4 counterexample: with the 25-symbol table documented in the repository's
`AgentGenome` declaration, the spec formula disagrees with the source at
`v = 1`: `decodeAssetIdx 1 = 27`, outside `[0, 24]`. -/
theorem decodeAssetIdx_spec25_counterexample :
    decodeAssetIdx 1 = 27 ∧ specDecodeAssetIndex 25 1 = 24 ∧
      decodeAssetIdx 1 ≠ specDecodeAssetIndex 25 1 := by
  unfold decodeAssetIdx specDecodeAssetIndex jsRound
  norm_num [Int.floor_eq_iff]

-- ─── C8 ──────────────────────────────────────────────────────────────────────

/-- C8: the niche-crowding penalty is 0 at share ≤ 0.40 and
`min(0.25, (s-0.40)/0.60 × 0.25)` above, is monotone, never exceeds 0.25, and
the selection fitness is `storedFitness × (1 - penalty)`. -/
theorem nicheCrowding_penalty_properties :
    (∀ s : ℚ, s ≤ 2/5 → nichePenalty s = 0) ∧
    (∀ s : ℚ, 2/5 < s → nichePenalty s = min (1/4) ((s - 2/5) / (3/5) * (1/4))) ∧
    (∀ s t : ℚ, s ≤ t → nichePenalty s ≤ nichePenalty t) ∧
    (∀ s : ℚ, nichePenalty s ≤ 1/4) ∧
    (∀ (newResults : ℕ → Option BacktestResult) (backtested : List Agent)
        (a : Agent) (r : BacktestResult), newResults a.id = some r →
      nicheSelectFitness newResults backtested a =
        a.fitness * (1 - nichePenalty (assetShare newResults backtested r.asset))) := by
  refine ⟨?_, ?_, fun s t h => nichePenalty_mono h, fun s => nichePenalty_le, ?_⟩
  · intro s h
    unfold nichePenalty
    rw [if_neg (not_lt.mpr h)]
  · intro s h
    unfold nichePenalty
    rw [if_pos h]
  · intro nr bt a r h
    unfold nicheSelectFitness
    rw [h]

def witnessResult : BacktestResult :=
  { totalReturn := 0, sharpe := 0, maxDrawdown := 0, winRate := 0, trades := 0,
    fitness := 0, equityCurve := [], tradeSignals := [], fastPeriod := 5,
    slowPeriod := 20, asset := "BTC" }

def witnessAgent : Agent :=
  { id := 1, name := "a", generation := 0, fitness := 80, status := AgentStatus.active,
    archetype := Archetype.hybrid, sharpe := 0, maxDrawdown := 0, winRate := 0,
    totalReturn := 0, trades := 0, parentIds := [], genome := ⟨0, 0, 0, 0⟩ }

/-- Witness for C8 at concrete shares and a concrete scored agent. -/
theorem nicheCrowding_penalty_properties_witness :
    nichePenalty (1/5) = 0 ∧
    nichePenalty (1/2) = min (1/4) ((1/2 - 2/5) / (3/5) * (1/4)) ∧
    nichePenalty (3/10) ≤ nichePenalty (7/10) ∧
    nichePenalty (9/10) ≤ 1/4 ∧
    nicheSelectFitness (fun _ => some witnessResult) [witnessAgent] witnessAgent =
      witnessAgent.fitness *
        (1 - nichePenalty (assetShare (fun _ => some witnessResult) [witnessAgent]
          witnessResult.asset)) :=
  ⟨nicheCrowding_penalty_properties.1 (1/5) (by norm_num),
   nicheCrowding_penalty_properties.2.1 (1/2) (by norm_num),
   nicheCrowding_penalty_properties.2.2.1 (3/10) (7/10) (by norm_num),
   nicheCrowding_penalty_properties.2.2.2.1 (9/10),
   nicheCrowding_penalty_properties.2.2.2.2 (fun _ => some witnessResult)
     [witnessAgent] witnessAgent witnessResult rfl⟩

-- ─── C5 ──────────────────────────────────────────────────────────────────────

/-- C5 (amended): the fitness of every backtest is the base composite fitness
times the consistency factor (0.50 below -20 % second-half return, 0.75 below
-5 %, else 1), **rounded to one decimal place** (`+(...).toFixed(1)`). -/
theorem runBacktest_fitness_consistency (tanhF sqrtF : ℚ → ℚ) (bars : List Bar)
    (fv sv ra C : ℚ) (hlen : 50 ≤ bars.length) :
    (runBacktest tanhF sqrtF bars fv sv ra C).map BacktestResult.fitness =
      some (roundTo 1 (btBaseFitness tanhF sqrtF bars fv sv ra C *
        consistencyFactor (btYear2Return tanhF bars fv sv ra C))) := by
  unfold runBacktest
  rw [if_neg (not_lt.mpr hlen)]
  rfl

/-- Witness for C5's amended claim on the concrete 60-bar series. -/
theorem runBacktest_fitness_consistency_witness :
    50 ≤ cexBars.length ∧
      (runBacktest cexTanh cexSqrt cexBars 0 0 0 100000).map BacktestResult.fitness =
        some (roundTo 1 (btBaseFitness cexTanh cexSqrt cexBars 0 0 0 100000 *
          consistencyFactor (btYear2Return cexTanh cexBars 0 0 0 100000))) :=
  ⟨by decide,
   runBacktest_fitness_consistency cexTanh cexSqrt cexBars 0 0 0 100000 (by decide)⟩

/-- C5 counterexample: on the concrete 60-bar series the returned fitness is
8.0, while the (unrounded) base fitness times the consistency factor is
15.9 × 0.5 = 7.95 — the claim's exact equality fails because the source rounds
the product to one decimal. -/
theorem runBacktest_fitness_unrounded_counterexample :
    (runBacktest cexTanh cexSqrt cexBars 0 0 0 100000).map BacktestResult.fitness =
        some 8 ∧
      btBaseFitness cexTanh cexSqrt cexBars 0 0 0 100000 *
          consistencyFactor (btYear2Return cexTanh cexBars 0 0 0 100000) = 159/20 ∧
      (8 : ℚ) ≠ 159/20 :=
  ⟨cexFitness_eq,
   by rw [cexBase_eq, cexY2_eq]; norm_num [consistencyFactor],
   by norm_num⟩

-- ─── C1 ──────────────────────────────────────────────────────────────────────

/-- C1 (code behaviour at the failing input): with zero active agents the
generation cycle is *not* a no-op reporting zero culled and zero born — the
cull count evaluates to `max(1, floor(0.20 × 0)) = 1`, and building the
offspring indexes the empty breeding pool, so the cycle fails
(`runGenerationCore` returns `none`; the source throws a TypeError that its
try/catch reports as a failed generation). -/
theorem runGenerationCore_empty_population (tanhF sqrtF : ℚ → ℚ)
    (symbols : List String) (priceHistory : String → List Bar)
    (rand : ℕ → ℚ) (currentGen : ℕ) :
    runGenerationCore tanhF sqrtF symbols priceHistory rand currentGen [] = none ∧
      cullCountOf 0 = 1 := by
  constructor
  · unfold runGenerationCore
    simp [mkOffspringOne, cullCountOf, List.mergeSort_nil, List.range_succ, List.range_zero,
      List.mapM, List.mapM.loop]
  · rfl

-- ─── Projection lemmas for the loop-step components ─────────────────────────

theorem markToMarket_cash (st : SimState) (d : String) (e : ℚ) :
    (markToMarket st d e).cash = st.cash := by
  unfold markToMarket
  cases st.equityCurve.head? <;> rfl

theorem markToMarket_position (st : SimState) (d : String) (e : ℚ) :
    (markToMarket st d e).position = st.position := by
  unfold markToMarket
  cases st.equityCurve.head? <;> rfl

theorem markToMarket_currentExposure (st : SimState) (d : String) (e : ℚ) :
    (markToMarket st d e).currentExposure = st.currentExposure := by
  unfold markToMarket
  cases st.equityCurve.head? <;> rfl

theorem markToMarket_entryEquity (st : SimState) (d : String) (e : ℚ) :
    (markToMarket st d e).entryEquity = st.entryEquity := by
  unfold markToMarket
  cases st.equityCurve.head? <;> rfl

theorem markToMarket_wins (st : SimState) (d : String) (e : ℚ) :
    (markToMarket st d e).wins = st.wins := by
  unfold markToMarket
  cases st.equityCurve.head? <;> rfl

theorem markToMarket_losses (st : SimState) (d : String) (e : ℚ) :
    (markToMarket st d e).losses = st.losses := by
  unfold markToMarket
  cases st.equityCurve.head? <;> rfl

theorem markToMarket_tradeSignals (st : SimState) (d : String) (e : ℚ) :
    (markToMarket st d e).tradeSignals = st.tradeSignals := by
  unfold markToMarket
  cases st.equityCurve.head? <;> rfl

theorem markToMarket_prevF (st : SimState) (d : String) (e : ℚ) :
    (markToMarket st d e).prevF = st.prevF := by
  unfold markToMarket
  cases st.equityCurve.head? <;> rfl

theorem markToMarket_prevS (st : SimState) (d : String) (e : ℚ) :
    (markToMarket st d e).prevS = st.prevS := by
  unfold markToMarket
  cases st.equityCurve.head? <;> rfl

theorem applySignals_cash (tanhF : ℚ → ℚ) (ra : ℚ) (st : SimState)
    (d : String) (price f s : ℚ) :
    (applySignals tanhF ra st d price f s).cash = st.cash := by
  obtain ⟨c1, p1, ce1, ee1, w1, l1, ec1, ts1, dr1, pf1, ps1, pk1, dd1⟩ := st
  unfold applySignals
  cases pf1 <;> cases ps1 <;> dsimp only <;> try rfl
  all_goals split_ifs <;> rfl

theorem applySignals_position (tanhF : ℚ → ℚ) (ra : ℚ) (st : SimState)
    (d : String) (price f s : ℚ) :
    (applySignals tanhF ra st d price f s).position = st.position := by
  obtain ⟨c1, p1, ce1, ee1, w1, l1, ec1, ts1, dr1, pf1, ps1, pk1, dd1⟩ := st
  unfold applySignals
  cases pf1 <;> cases ps1 <;> dsimp only <;> try rfl
  all_goals split_ifs <;> rfl

theorem applySignals_currentExposure (tanhF : ℚ → ℚ) (ra : ℚ) (st : SimState)
    (d : String) (price f s : ℚ) :
    (applySignals tanhF ra st d price f s).currentExposure = st.currentExposure := by
  obtain ⟨c1, p1, ce1, ee1, w1, l1, ec1, ts1, dr1, pf1, ps1, pk1, dd1⟩ := st
  unfold applySignals
  cases pf1 <;> cases ps1 <;> dsimp only <;> try rfl
  all_goals split_ifs <;> rfl

theorem applySignals_entryEquity (tanhF : ℚ → ℚ) (ra : ℚ) (st : SimState)
    (d : String) (price f s : ℚ) :
    (applySignals tanhF ra st d price f s).entryEquity = st.entryEquity := by
  obtain ⟨c1, p1, ce1, ee1, w1, l1, ec1, ts1, dr1, pf1, ps1, pk1, dd1⟩ := st
  unfold applySignals
  cases pf1 <;> cases ps1 <;> dsimp only <;> try rfl
  all_goals split_ifs <;> rfl

theorem applySignals_wins (tanhF : ℚ → ℚ) (ra : ℚ) (st : SimState)
    (d : String) (price f s : ℚ) :
    (applySignals tanhF ra st d price f s).wins = st.wins := by
  obtain ⟨c1, p1, ce1, ee1, w1, l1, ec1, ts1, dr1, pf1, ps1, pk1, dd1⟩ := st
  unfold applySignals
  cases pf1 <;> cases ps1 <;> dsimp only <;> try rfl
  all_goals split_ifs <;> rfl

theorem applySignals_losses (tanhF : ℚ → ℚ) (ra : ℚ) (st : SimState)
    (d : String) (price f s : ℚ) :
    (applySignals tanhF ra st d price f s).losses = st.losses := by
  obtain ⟨c1, p1, ce1, ee1, w1, l1, ec1, ts1, dr1, pf1, ps1, pk1, dd1⟩ := st
  unfold applySignals
  cases pf1 <;> cases ps1 <;> dsimp only <;> try rfl
  all_goals split_ifs <;> rfl

theorem applySignals_prevF (tanhF : ℚ → ℚ) (ra : ℚ) (st : SimState)
    (d : String) (price f s : ℚ) :
    (applySignals tanhF ra st d price f s).prevF = st.prevF := by
  obtain ⟨c1, p1, ce1, ee1, w1, l1, ec1, ts1, dr1, pf1, ps1, pk1, dd1⟩ := st
  unfold applySignals
  cases pf1 <;> cases ps1 <;> dsimp only <;> try rfl
  all_goals split_ifs <;> rfl

theorem applySignals_prevS (tanhF : ℚ → ℚ) (ra : ℚ) (st : SimState)
    (d : String) (price f s : ℚ) :
    (applySignals tanhF ra st d price f s).prevS = st.prevS := by
  obtain ⟨c1, p1, ce1, ee1, w1, l1, ec1, ts1, dr1, pf1, ps1, pk1, dd1⟩ := st
  unfold applySignals
  cases pf1 <;> cases ps1 <;> dsimp only <;> try rfl
  all_goals split_ifs <;> rfl

-- ─── Cash/position nonnegativity through one rebalance and one bar ───────────

theorem rebalance_nonneg {st : SimState} (equity price tgt : ℚ)
    (hprice : 0 < price) (hc : 0 ≤ st.cash) (hp : 0 ≤ st.position) :
    0 ≤ (rebalance st equity price tgt).cash ∧
      0 ≤ (rebalance st equity price tgt).position := by
  obtain ⟨c1, p1, ce1, ee1, w1, l1, ec1, ts1, dr1, pf1, ps1, pk1, dd1⟩ := st
  dsimp only at hc hp
  simp only [rebalance]
  split_ifs with hskip hbuy hfresh hsell hexit hwin
  · exact ⟨hc, hp⟩
  · -- buy, fresh entry
    refine ⟨?_, ?_⟩ <;> dsimp only
    · have := min_le_right ((equity * tgt / price - p1) * price) c1
      linarith
    · have h0 : 0 ≤ min ((equity * tgt / price - p1) * price) c1 :=
        le_min (mul_nonneg hbuy.le hprice.le) hc
      have := div_nonneg h0 hprice.le
      linarith
  · -- buy, continuing position
    refine ⟨?_, ?_⟩ <;> dsimp only
    · have := min_le_right ((equity * tgt / price - p1) * price) c1
      linarith
    · have h0 : 0 ≤ min ((equity * tgt / price - p1) * price) c1 :=
        le_min (mul_nonneg hbuy.le hprice.le) hc
      have := div_nonneg h0 hprice.le
      linarith
  · -- sell, full exit, win
    refine ⟨?_, le_refl 0⟩
    dsimp only
    have hau0 : 0 ≤ min |equity * tgt / price - p1| p1 := le_min (abs_nonneg _) hp
    have heq : c1 + min |equity * tgt / price - p1| p1 * price +
        (p1 - min |equity * tgt / price - p1| p1) * price = c1 + p1 * price := by ring
    have hp1p : 0 ≤ p1 * price := mul_nonneg hp hprice.le
    linarith
  · -- sell, full exit, loss
    refine ⟨?_, le_refl 0⟩
    dsimp only
    have hau0 : 0 ≤ min |equity * tgt / price - p1| p1 := le_min (abs_nonneg _) hp
    have heq : c1 + min |equity * tgt / price - p1| p1 * price +
        (p1 - min |equity * tgt / price - p1| p1) * price = c1 + p1 * price := by ring
    have hp1p : 0 ≤ p1 * price := mul_nonneg hp hprice.le
    linarith
  · -- partial sell
    refine ⟨?_, ?_⟩ <;> dsimp only
    · have hau0 : 0 ≤ min |equity * tgt / price - p1| p1 := le_min (abs_nonneg _) hp
      have := mul_nonneg hau0 hprice.le
      linarith
    · have := min_le_right |equity * tgt / price - p1| p1
      linarith
  · -- delta = 0
    exact ⟨hc, hp⟩

theorem stepBar_nonneg (tanhF : ℚ → ℚ) (ra : ℚ) {st : SimState}
    (x : Bar × Option ℚ × Option ℚ) (hprice : 0 < x.1.close)
    (hc : 0 ≤ st.cash) (hp : 0 ≤ st.position) :
    0 ≤ (stepBar tanhF ra st x).cash ∧ 0 ≤ (stepBar tanhF ra st x).position := by
  unfold stepBar
  rcases x with ⟨b, fo, so⟩
  dsimp only at hprice ⊢
  cases fo <;> cases so <;> dsimp only
  case none.none | none.some | some.none =>
    constructor <;>
      simp only [markToMarket_cash, markToMarket_position] <;> assumption
  case some.some f s =>
    apply rebalance_nonneg _ _ _ hprice
    · rw [applySignals_cash, markToMarket_cash]
      exact hc
    · rw [applySignals_position, markToMarket_position]
      exact hp

-- ─── Unrolling the loop one bar at a time ────────────────────────────────────

theorem simUpTo_zero (tanhF : ℚ → ℚ) (ra C : ℚ) (zl : List (Bar × Option ℚ × Option ℚ)) :
    simUpTo tanhF ra C zl 0 = simInit C := rfl

theorem simUpTo_succ (tanhF : ℚ → ℚ) (ra C : ℚ)
    (zl : List (Bar × Option ℚ × Option ℚ)) (k : ℕ) :
    simUpTo tanhF ra C zl (k + 1) =
      match zl.get? k with
      | some x => stepBar tanhF ra (simUpTo tanhF ra C zl k) x
      | none => simUpTo tanhF ra C zl k := by
  unfold simUpTo
  rw [List.take_succ, List.foldl_append]
  rw [← List.get?_eq_getElem?]
  cases zl.get? k <;> rfl

-- ─── SMA facts ───────────────────────────────────────────────────────────────

theorem computeSMA_length (prices : List ℚ) (p : ℕ) :
    (computeSMA prices p).length = prices.length := by
  simp [computeSMA]

theorem computeSMA_get? (prices : List ℚ) (p : ℕ) (i : ℕ) (h : i < prices.length) :
    (computeSMA prices p).get? i =
      some (if i + 1 < p then none
            else some ((((prices.drop (i + 1 - p)).take p).sum) / p)) := by
  unfold computeSMA
  rw [List.get?_map, List.get?_range h]
  rfl

/-- Every defined SMA value over positive prices is positive. -/
theorem computeSMA_pos {prices : List ℚ} {p : ℕ} (hp : 1 ≤ p)
    (hpos : ∀ x ∈ prices, 0 < x) :
    ∀ e ∈ computeSMA prices p, ∀ v, e = some v → 0 < v := by
  intro e he v hev
  unfold computeSMA at he
  obtain ⟨i, hi, hfe⟩ := List.mem_map.mp he
  have hilen : i < prices.length := List.mem_range.mp hi
  subst hev
  by_cases hwarm : i + 1 < p
  · rw [if_pos hwarm] at hfe
    exact absurd hfe.symm (by simp)
  · rw [if_neg hwarm] at hfe
    have hfe' := Option.some.inj hfe.symm
    rw [hfe']
    have hlen : ((prices.drop (i + 1 - p)).take p).length = p := by
      rw [List.length_take, List.length_drop]
      omega
    have hmem : ∀ x ∈ (prices.drop (i + 1 - p)).take p, 0 < x := fun x hx =>
      hpos x (List.mem_of_mem_drop (List.mem_of_mem_take hx))
    have hne : (prices.drop (i + 1 - p)).take p ≠ [] := by
      intro hnil
      rw [hnil] at hlen
      simp at hlen
      omega
    have hsum : 0 < ((prices.drop (i + 1 - p)).take p).sum := List.sum_pos _ hmem hne
    have hp' : (0 : ℚ) < p := by exact_mod_cast Nat.lt_of_lt_of_le Nat.zero_lt_one hp
    exact div_pos hsum hp'

/-- Every SMA value over a constant price list is the constant (or undefined). -/
theorem computeSMA_const {prices : List ℚ} {c : ℚ} (hconst : ∀ x ∈ prices, x = c)
    {p : ℕ} (hp : 1 ≤ p) :
    ∀ e ∈ computeSMA prices p, e = none ∨ e = some c := by
  intro e he
  unfold computeSMA at he
  obtain ⟨i, hi, hfe⟩ := List.mem_map.mp he
  have hilen : i < prices.length := List.mem_range.mp hi
  by_cases hwarm : i + 1 < p
  · rw [if_pos hwarm] at hfe
    exact Or.inl hfe.symm
  · rw [if_neg hwarm] at hfe
    right
    rw [← hfe]
    have hlen : ((prices.drop (i + 1 - p)).take p).length = p := by
      rw [List.length_take, List.length_drop]
      omega
    have hmem : ∀ x ∈ (prices.drop (i + 1 - p)).take p, x = c := fun x hx =>
      hconst x (List.mem_of_mem_drop (List.mem_of_mem_take hx))
    have hsum : ((prices.drop (i + 1 - p)).take p).sum = p * c := by
      rw [List.sum_eq_card_nsmul _ c hmem, hlen]
      simp [nsmul_eq_mul]
    have hp' : (p : ℚ) ≠ 0 := by
      have : (0 : ℚ) < p := by exact_mod_cast Nat.lt_of_lt_of_le Nat.zero_lt_one hp
      exact ne_of_gt this
    rw [hsum, mul_div_cancel_left₀ c hp']

-- ─── Period bounds ───────────────────────────────────────────────────────────

theorem decodeFastMA_ge (v : ℚ) : 5 ≤ decodeFastMA v := le_max_left _ _

theorem decodeSlowMA_ge (v : ℚ) : 20 ≤ decodeSlowMA v := le_max_left _ _

theorem correctedSlowP_ge (fv sv : ℚ) :
    15 ≤ correctedSlowP (decodeFastMA fv) (decodeSlowMA sv) := by
  unfold correctedSlowP
  split
  · have h5 := decodeFastMA_ge fv
    have h10 : (10 : ℤ) ≤ max 10 ⌈(decodeFastMA fv : ℚ) * (1/4)⌉ := le_max_left _ _
    omega
  · have := decodeSlowMA_ge sv
    omega

/-- The source's in-simulator correction always yields `fast < slow`
(shared helper; also the content of claim C7). -/
theorem fastP_lt_correctedSlowP (fv sv : ℚ) :
    decodeFastMA fv < correctedSlowP (decodeFastMA fv) (decodeSlowMA sv) := by
  unfold correctedSlowP
  split
  · have h10 : (10 : ℤ) ≤ max 10 ⌈(decodeFastMA fv : ℚ) * (1/4)⌉ := le_max_left _ _
    omega
  · omega

-- ─── Target exposure bound ───────────────────────────────────────────────────

theorem targetExposureQ_bounds (tanhF : ℚ → ℚ)
    (htanh : ∀ x : ℚ, 0 ≤ x → 0 ≤ tanhF x ∧ tanhF x < 1)
    {ra f s : ℚ} (hra0 : 0 ≤ ra) (hra1 : ra ≤ 1) (hs : 0 < s) :
    0 ≤ targetExposureQ tanhF ra f s ∧ targetExposureQ tanhF ra f s < 99/100 := by
  unfold targetExposureQ
  split_ifs with hf
  · have hfs : 0 < f - s := sub_pos.mpr hf
    have hσ : 0 ≤ (f - s) / s * 15 := by positivity
    obtain ⟨ht0, ht1⟩ := htanh _ hσ
    have hra' : 0 ≤ 1 - ra := by linarith
    constructor
    · exact mul_nonneg (mul_nonneg hra' ht0) (by norm_num)
    · have h2 : (1 - ra) * tanhF ((f - s) / s * 15) ≤ tanhF ((f - s) / s * 15) :=
        mul_le_of_le_one_left ht0 (by linarith)
      have h3 : (1 - ra) * tanhF ((f - s) / s * 15) < 1 := lt_of_le_of_lt h2 ht1
      linarith
  · norm_num

-- ─── C2: no leverage, no shorts, bounded exposure ────────────────────────────

def simStateAt (tanhF : ℚ → ℚ) (bars : List Bar)
    (fastMAv slowMAv riskAversion initialCapital : ℚ) (k : ℕ) : SimState :=
  let fastP := decodeFastMA fastMAv
  let slowP := correctedSlowP fastP (decodeSlowMA slowMAv)
  simUpTo tanhF riskAversion initialCapital (zippedBars bars fastP.toNat slowP.toNat) k

/-- The target exposure fraction the simulator computes at bar `k` (0 during
the SMA warm-up, as in the source). -/
def targetExposureAt (tanhF : ℚ → ℚ) (bars : List Bar)
    (fastMAv slowMAv riskAversion : ℚ) (k : ℕ) : ℚ :=
  let fastP := decodeFastMA fastMAv
  let slowP := correctedSlowP fastP (decodeSlowMA slowMAv)
  match (computeSMA (bars.map Bar.close) fastP.toNat).get? k,
        (computeSMA (bars.map Bar.close) slowP.toNat).get? k with
  | some (some f), some (some s) => targetExposureQ tanhF riskAversion f s
  | _, _ => 0

theorem simStateAt_nonneg (tanhF : ℚ → ℚ) (bars : List Bar)
    (fv sv ra C : ℚ) (hpos : ∀ b ∈ bars, 0 < b.close) (hC : 0 ≤ C) (k : ℕ) :
    0 ≤ (simStateAt tanhF bars fv sv ra C k).cash ∧
      0 ≤ (simStateAt tanhF bars fv sv ra C k).position := by
  unfold simStateAt
  induction k with
  | zero => exact ⟨hC, le_refl 0⟩
  | succ k ih =>
    rw [simUpTo_succ]
    cases hget : (zippedBars bars (decodeFastMA fv).toNat
        (correctedSlowP (decodeFastMA fv) (decodeSlowMA sv)).toNat).get? k with
    | none => exact ih
    | some x =>
      have hmem := List.get?_mem hget
      rcases x with ⟨b, sm⟩
      have hb : b ∈ bars := (List.of_mem_zip hmem).1
      exact stepBar_nonneg tanhF ra _ (hpos b hb) ih.1 ih.2

/-- C2: over any bar sequence with positive closes and any genome with genes
in `[0, 1]`, at every bar of the simulation the cash and the position held are
nonnegative (no short selling, no borrowing), hence the market value of the
position never exceeds equity and equity never goes negative; and the target
exposure fraction lies in `[0, 0.99)`. -/
theorem runBacktest_no_leverage (tanhF : ℚ → ℚ)
    (htanh : ∀ x : ℚ, 0 ≤ x → 0 ≤ tanhF x ∧ tanhF x < 1)
    (bars : List Bar) (hlen : 50 ≤ bars.length) (hpos : ∀ b ∈ bars, 0 < b.close)
    (fv sv ra C : ℚ) (hfv0 : 0 ≤ fv) (hfv1 : fv ≤ 1) (hsv0 : 0 ≤ sv) (hsv1 : sv ≤ 1)
    (hra0 : 0 ≤ ra) (hra1 : ra ≤ 1) (hC : 0 < C) (k : ℕ) (hk : k < bars.length) :
    0 ≤ (simStateAt tanhF bars fv sv ra C k).cash ∧
    0 ≤ (simStateAt tanhF bars fv sv ra C k).position ∧
    (∀ b, bars.get? k = some b →
      0 ≤ (simStateAt tanhF bars fv sv ra C k).cash +
          (simStateAt tanhF bars fv sv ra C k).position * b.close ∧
      (simStateAt tanhF bars fv sv ra C k).position * b.close ≤
        (simStateAt tanhF bars fv sv ra C k).cash +
          (simStateAt tanhF bars fv sv ra C k).position * b.close) ∧
    0 ≤ targetExposureAt tanhF bars fv sv ra k ∧
    targetExposureAt tanhF bars fv sv ra k < 99/100 := by
  obtain ⟨hcash, hposn⟩ := simStateAt_nonneg tanhF bars fv sv ra C hpos hC.le k
  refine ⟨hcash, hposn, ?_, ?_⟩
  · intro b hb
    have hbmem : b ∈ bars := List.get?_mem hb
    have hbc : 0 < b.close := hpos b hbmem
    constructor
    · have := mul_nonneg hposn hbc.le
      linarith
    · linarith
  · unfold targetExposureAt
    dsimp only
    cases hF : (computeSMA (bars.map Bar.close) (decodeFastMA fv).toNat).get? k with
    | none => exact ⟨le_refl 0, by norm_num⟩
    | some eF =>
      cases hS : (computeSMA (bars.map Bar.close)
          (correctedSlowP (decodeFastMA fv) (decodeSlowMA sv)).toNat).get? k with
      | none => cases eF <;> exact ⟨le_refl 0, by norm_num⟩
      | some eS =>
        cases eF with
        | none => exact ⟨le_refl 0, by norm_num⟩
        | some f =>
          cases eS with
          | none => exact ⟨le_refl 0, by norm_num⟩
          | some s =>
            have hsmem : (some s : Option ℚ) ∈ computeSMA (bars.map Bar.close)
                (correctedSlowP (decodeFastMA fv) (decodeSlowMA sv)).toNat :=
              List.get?_mem hS
            have hp1 : 1 ≤ (correctedSlowP (decodeFastMA fv) (decodeSlowMA sv)).toNat := by
              have := correctedSlowP_ge fv sv
              omega
            have hclosepos : ∀ x ∈ bars.map Bar.close, 0 < x := by
              intro x hx
              obtain ⟨b, hbmem, hbc⟩ := List.mem_map.mp hx
              rw [← hbc]
              exact hpos b hbmem
            have hs : 0 < s := computeSMA_pos hp1 hclosepos _ hsmem s rfl
            exact targetExposureQ_bounds tanhF htanh hra0 hra1 hs

-- witness material for C2 and C9

/-- A computable stand-in for Math.tanh on the nonnegative axis:
`x / (1 + x)` (0 below zero), satisfying `0 ≤ tanhModel x < 1` for `x ≥ 0`. -/
def tanhModel (x : ℚ) : ℚ := if x < 0 then 0 else x / (1 + x)

theorem tanhModel_bounds : ∀ x : ℚ, 0 ≤ x → 0 ≤ tanhModel x ∧ tanhModel x < 1 := by
  intro x hx
  unfold tanhModel
  rw [if_neg (not_lt.mpr hx)]
  have h1 : (0 : ℚ) < 1 + x := by linarith
  constructor
  · positivity
  · rw [div_lt_one h1]
    linarith

def constBars : List Bar := List.replicate 50 (Bar.mk "d" 100)

theorem constBars_length : constBars.length = 50 := by decide

theorem constBars_pos : ∀ b ∈ constBars, 0 < b.close := by
  intro b hb
  rw [List.eq_of_mem_replicate hb]
  norm_num

/-- Witness for C2 at the constant 50-bar series, `k = 49`. -/
theorem runBacktest_no_leverage_witness :
    (∀ x : ℚ, 0 ≤ x → 0 ≤ tanhModel x ∧ tanhModel x < 1) ∧
    (0 ≤ (simStateAt tanhModel constBars (1/2) (1/2) (1/2) 100000 49).cash ∧
     0 ≤ (simStateAt tanhModel constBars (1/2) (1/2) (1/2) 100000 49).position ∧
     (∀ b, constBars.get? 49 = some b →
       0 ≤ (simStateAt tanhModel constBars (1/2) (1/2) (1/2) 100000 49).cash +
           (simStateAt tanhModel constBars (1/2) (1/2) (1/2) 100000 49).position * b.close ∧
       (simStateAt tanhModel constBars (1/2) (1/2) (1/2) 100000 49).position * b.close ≤
         (simStateAt tanhModel constBars (1/2) (1/2) (1/2) 100000 49).cash +
           (simStateAt tanhModel constBars (1/2) (1/2) (1/2) 100000 49).position * b.close) ∧
     0 ≤ targetExposureAt tanhModel constBars (1/2) (1/2) (1/2) 49 ∧
     targetExposureAt tanhModel constBars (1/2) (1/2) (1/2) 49 < 99/100) :=
  ⟨tanhModel_bounds,
   runBacktest_no_leverage tanhModel tanhModel_bounds constBars (by decide)
     constBars_pos (1/2) (1/2) (1/2) 100000 (by norm_num) (by norm_num) (by norm_num)
     (by norm_num) (by norm_num) (by norm_num) (by norm_num) 49 (by decide)⟩

-- ─── C9: constant prices produce no trades ───────────────────────────────────

/-- Loop invariant over a constant-price series: the portfolio stays flat. -/
def flatInvariant (C c : ℚ) (st : SimState) : Prop :=
  st.cash = C ∧ st.position = 0 ∧ st.currentExposure = 0 ∧ st.wins = 0 ∧
    st.losses = 0 ∧ st.tradeSignals = [] ∧
    (st.prevF = none ∨ st.prevF = some c) ∧ (st.prevS = none ∨ st.prevS = some c)

theorem stepBar_flat (tanhF : ℚ → ℚ) (ra C c : ℚ) (x : Bar × Option ℚ × Option ℚ)
    (hx1 : x.1.close = c) (hx2 : x.2.1 = none ∨ x.2.1 = some c)
    (hx3 : x.2.2 = none ∨ x.2.2 = some c) (st : SimState)
    (h : flatInvariant C c st) : flatInvariant C c (stepBar tanhF ra st x) := by
  obtain ⟨b, fo, so⟩ := x
  dsimp only at hx1 hx2 hx3
  obtain ⟨c1, p1, ce1, ee1, w1, l1, ec1, ts1, dr1, pf1, ps1, pk1, dd1⟩ := st
  obtain ⟨hc, hp, hce, hw, hl, hts, hpf, hps⟩ := h
  dsimp only at hc hp hce hw hl hts hpf hps
  subst hc hp hce hw hl hts hx1
  unfold stepBar markToMarket applySignals rebalance targetExposureQ flatInvariant
  rcases hx2 with h2 | h2 <;> subst h2 <;> rcases hx3 with h3 | h3 <;> subst h3 <;>
    rcases hpf with h4 | h4 <;> subst h4 <;> rcases hps with h5 | h5 <;> subst h5 <;>
    cases hh : ec1.head? <;>
    norm_num [hh, lt_irrefl]

theorem foldl_flat (tanhF : ℚ → ℚ) (ra C c : ℚ)
    (l : List (Bar × Option ℚ × Option ℚ))
    (hgood : ∀ x ∈ l, x.1.close = c ∧ (x.2.1 = none ∨ x.2.1 = some c) ∧
      (x.2.2 = none ∨ x.2.2 = some c))
    (st : SimState) (h : flatInvariant C c st) :
    flatInvariant C c (l.foldl (stepBar tanhF ra) st) := by
  induction l generalizing st with
  | nil => exact h
  | cons x xs ih =>
    rw [List.foldl_cons]
    obtain ⟨h1, h2, h3⟩ := hgood x (List.mem_cons_self x xs)
    apply ih
    · intro y hy
      exact hgood y (List.mem_cons_of_mem x hy)
    · exact stepBar_flat tanhF ra C c x h1 h2 h3 st h

/-- C9: over a series of at least 50 bars whose closes all equal the same
positive constant, the backtest reports zero trades, zero total return, zero
win rate, and an empty signal list. -/
theorem constant_prices_no_trades (tanhF sqrtF : ℚ → ℚ) (bars : List Bar) (c : ℚ)
    (hc : 0 < c) (hlen : 50 ≤ bars.length) (hconst : ∀ b ∈ bars, b.close = c)
    (fv sv ra C : ℚ) (hC : 0 < C) :
    ∃ r, runBacktest tanhF sqrtF bars fv sv ra C = some r ∧
      r.trades = 0 ∧ r.totalReturn = 0 ∧ r.winRate = 0 ∧ r.tradeSignals = [] := by
  have hclosesconst : ∀ x ∈ bars.map Bar.close, x = c := by
    intro x hx
    obtain ⟨b, hb, he⟩ := List.mem_map.mp hx
    rw [← he]
    exact hconst b hb
  have hfinal : flatInvariant C c (btFinalState tanhF bars fv sv ra C) := by
    unfold btFinalState simUpTo
    apply foldl_flat
    · intro x hx
      have hx' := List.mem_of_mem_take hx
      obtain ⟨b, e1, e2⟩ := x
      have hb : b ∈ bars := (List.of_mem_zip hx').1
      have hsm := (List.of_mem_zip hx').2
      have h1 := (List.of_mem_zip hsm).1
      have h2 := (List.of_mem_zip hsm).2
      refine ⟨hconst b hb, ?_, ?_⟩
      · apply computeSMA_const hclosesconst ?_ _ h1
        have := decodeFastMA_ge fv
        omega
      · apply computeSMA_const hclosesconst ?_ _ h2
        have := correctedSlowP_ge fv sv
        omega
    · exact ⟨rfl, rfl, rfl, rfl, rfl, rfl, Or.inl rfl, Or.inl rfl⟩
  obtain ⟨hc1, hp1, _, hw1, hl1, hts1, _, _⟩ := hfinal
  simp only [runBacktest, if_neg (not_lt.mpr hlen)]
  refine ⟨_, rfl, ?_, ?_, ?_, ?_⟩
  · dsimp only
    rw [hw1, hl1]
  · dsimp only
    have hfe : btFinalEquity (btFinalState tanhF bars fv sv ra C) (bars.map Bar.close) = C := by
      unfold btFinalEquity
      rw [hc1, hp1]
      ring
    rw [hfe]
    unfold btTotalReturn
    rw [sub_self, zero_div, zero_mul, roundTo_zero]
  · dsimp only
    rw [hw1, hl1]
    unfold btWinRate
    norm_num [roundTo_zero]
  · dsimp only
    rw [hts1]
    rfl

theorem constBars_const : ∀ b ∈ constBars, b.close = 100 := by
  intro b hb
  rw [List.eq_of_mem_replicate hb]

/-- Witness for C9 on the constant 50-bar series. -/
theorem constant_prices_no_trades_witness :
    ((0 : ℚ) < 100 ∧ 50 ≤ constBars.length ∧ (0:ℚ) < 100000) ∧
      (∃ r, runBacktest tanhModel (fun _ => 0) constBars (1/2) (1/2) (1/2) 100000 = some r ∧
        r.trades = 0 ∧ r.totalReturn = 0 ∧ r.winRate = 0 ∧ r.tradeSignals = []) :=
  ⟨⟨by norm_num, by decide, by norm_num⟩,
   constant_prices_no_trades tanhModel (fun _ => 0) constBars 100 (by norm_num)
     (by decide) constBars_const (1/2) (1/2) (1/2) 100000 (by norm_num)⟩

-- ─── C10: trade signals strictly alternate ───────────────────────────────────

theorem rebalance_tradeSignals (st : SimState) (equity price tgt : ℚ) :
    (rebalance st equity price tgt).tradeSignals = st.tradeSignals := by
  obtain ⟨c1, p1, ce1, ee1, w1, l1, ec1, ts1, dr1, pf1, ps1, pk1, dd1⟩ := st
  simp only [rebalance]
  split_ifs <;> rfl

theorem rebalance_prevF (st : SimState) (equity price tgt : ℚ) :
    (rebalance st equity price tgt).prevF = st.prevF := by
  obtain ⟨c1, p1, ce1, ee1, w1, l1, ec1, ts1, dr1, pf1, ps1, pk1, dd1⟩ := st
  simp only [rebalance]
  split_ifs <;> rfl

theorem rebalance_prevS (st : SimState) (equity price tgt : ℚ) :
    (rebalance st equity price tgt).prevS = st.prevS := by
  obtain ⟨c1, p1, ce1, ee1, w1, l1, ec1, ts1, dr1, pf1, ps1, pk1, dd1⟩ := st
  simp only [rebalance]
  split_ifs <;> rfl

/-- A bar whose slow SMA is still undefined never touches the signal list and
clears the stored previous slow SMA. -/
theorem stepBar_slow_none (tanhF : ℚ → ℚ) (ra : ℚ) (st : SimState)
    (b : Bar) (fo : Option ℚ) :
    (stepBar tanhF ra st (b, fo, none)).tradeSignals = st.tradeSignals ∧
      (stepBar tanhF ra st (b, fo, none)).prevS = none := by
  unfold stepBar
  cases fo <;> dsimp only <;> exact ⟨markToMarket_tradeSignals _ _ _, rfl⟩


-- ─── C10: trade signals strictly alternate ──────────────────────────────────


/-- One bar with both SMAs defined: the stored SMAs become this bar's values and
the signal list grows by the golden/death-cross rule applied to the previous
bar's SMAs. -/
theorem stepBar_some_some (tanhF : ℚ → ℚ) (ra : ℚ) (st : SimState)
    (b : Bar) (f s : ℚ) :
    (stepBar tanhF ra st (b, some f, some s)).prevF = some f ∧
    (stepBar tanhF ra st (b, some f, some s)).prevS = some s ∧
    (stepBar tanhF ra st (b, some f, some s)).tradeSignals =
      (match st.prevF, st.prevS with
       | some pf, some ps =>
         if s < f ∧ pf ≤ ps then
           TradeSignal.mk b.date b.close SignalAction.entry
             (roundTo 4 ((1 - ra) * tanhF ((f - s) / s * 15) * (99/100))) :: st.tradeSignals
         else if f ≤ s ∧ ps < pf then
           TradeSignal.mk b.date b.close SignalAction.exit 0 :: st.tradeSignals
         else st.tradeSignals
       | _, _ => st.tradeSignals) := by
  unfold stepBar
  dsimp only
  refine ⟨?_, ?_, ?_⟩
  · rw [rebalance_prevF]
  · rw [rebalance_prevS]
  · rw [rebalance_tradeSignals]
    dsimp only
    unfold applySignals
    rw [markToMarket_prevF, markToMarket_prevS]
    cases st.prevF <;> cases st.prevS <;> dsimp only <;>
      ((try split_ifs) <;> simp [markToMarket_tradeSignals])

theorem zippedBars_get? (bars : List Bar) (fp sp k : ℕ) (hk : k < bars.length) :
    ∃ b : Bar,
      bars.get? k = some b ∧
      (zippedBars bars fp sp).get? k = some (b,
        (if k + 1 < fp then none
         else some ((((bars.map Bar.close).drop (k + 1 - fp)).take fp).sum / fp)),
        (if k + 1 < sp then none
         else some ((((bars.map Bar.close).drop (k + 1 - sp)).take sp).sum / sp))) := by
  have hb : bars.get? k ≠ none := by
    intro hnone
    rw [List.get?_eq_none] at hnone
    omega
  obtain ⟨b, hb⟩ := Option.ne_none_iff_exists'.mp hb
  refine ⟨b, hb, ?_⟩
  have hlen : (bars.map Bar.close).length = bars.length := List.length_map _ _
  have h1 := computeSMA_get? (bars.map Bar.close) fp k (by omega)
  have h2 := computeSMA_get? (bars.map Bar.close) sp k (by omega)
  unfold zippedBars
  rw [List.get?_eq_getElem?] at hb h1 h2 ⊢
  rw [List.zip_eq_zipWith, List.getElem?_zipWith, hb, List.zip_eq_zipWith,
    List.getElem?_zipWith, h1, h2]

/-- The invariant carried bar-by-bar for the alternation claim: the recorded
signals alternate; during the slow-SMA warm-up (`k ≤ m`) nothing is recorded
and no previous slow SMA is stored; afterwards, if anything was recorded, both
previous SMAs are stored and the most recent signal is an entry exactly when
the previous bar's regime was bullish. -/
def altInvariant (m k : ℕ) (st : SimState) : Prop :=
  List.Chain' (fun a b => a.action ≠ b.action) st.tradeSignals ∧
  (k ≤ m → st.tradeSignals = [] ∧ st.prevS = none) ∧
  (m < k → st.tradeSignals = [] ∨ ∃ pf ps, st.prevF = some pf ∧ st.prevS = some ps ∧
    (∀ sig, st.tradeSignals.head? = some sig →
      (sig.action = SignalAction.entry ↔ ps < pf)))


theorem altInvariant_mono (m k : ℕ) (st : SimState) (h : altInvariant m k st) :
    altInvariant m (k + 1) st := by
  obtain ⟨h1, h2, h3⟩ := h
  refine ⟨h1, fun hk => h2 (by omega), fun hk => ?_⟩
  rcases Nat.lt_or_ge m k with hmk | hmk
  · exact h3 hmk
  · exact Or.inl (h2 hmk).1

theorem altInvariant_step (tanhF : ℚ → ℚ) (ra : ℚ) (m k : ℕ) (st : SimState)
    (x : Bar × Option ℚ × Option ℚ)
    (hwarm : k < m → x.2.2 = none)
    (hboth : m ≤ k → ∃ f s, x.2 = (some f, some s))
    (h : altInvariant m k st) :
    altInvariant m (k + 1) (stepBar tanhF ra st x) := by
  obtain ⟨hchain, hpre, hpost⟩ := h
  obtain ⟨b, fo, so⟩ := x
  rcases Nat.lt_or_ge k m with hk | hk
  · -- warm-up: the slow SMA is still undefined
    have hso : so = none := hwarm hk
    subst hso
    obtain ⟨hts, hps⟩ := stepBar_slow_none tanhF ra st b fo
    obtain ⟨hempty, _⟩ := hpre (le_of_lt hk)
    refine ⟨?_, fun _ => ⟨?_, hps⟩, fun hmk => Or.inl ?_⟩ <;> rw [hts, hempty]
    exact List.chain'_nil
  · -- both SMAs defined at this bar
    obtain ⟨f, s, hfs⟩ := hboth hk
    injection hfs with hfo hso
    subst hfo hso
    obtain ⟨hpF, hpS, hts⟩ := stepBar_some_some tanhF ra st b f s
    have himp : ¬(k + 1 ≤ m) := by omega
    have hentry_ne : SignalAction.entry ≠ SignalAction.exit := by decide
    rcases Nat.eq_or_lt_of_le hk with heq | hlt
    · -- first bar with both SMAs defined: prevS is still none, nothing fires
      obtain ⟨hempty, hpsnone⟩ := hpre (by omega)
      rw [hpsnone] at hts
      have hts' : (stepBar tanhF ra st (b, some f, some s)).tradeSignals =
          st.tradeSignals := by
        rw [hts]
        cases st.prevF <;> rfl
      refine ⟨?_, fun hcon => absurd hcon himp, fun _ => Or.inl ?_⟩ <;>
        rw [hts', hempty]
      exact List.chain'_nil
    · -- past the first defined bar
      rcases hpost hlt with hempty | ⟨pf, ps, hpf, hps, hcoup⟩
      · -- nothing recorded yet; at most one signal appears now
        rw [hempty] at hts hchain
        cases hPF : st.prevF with
        | none =>
          rw [hPF] at hts
          exact ⟨hts ▸ List.chain'_nil, fun hcon => absurd hcon himp,
            fun _ => Or.inl hts⟩
        | some pf =>
          cases hPS : st.prevS with
          | none =>
            rw [hPF, hPS] at hts
            exact ⟨hts ▸ List.chain'_nil, fun hcon => absurd hcon himp,
              fun _ => Or.inl hts⟩
          | some ps =>
            rw [hPF, hPS] at hts
            dsimp only at hts
            split_ifs at hts with h1 h2
            · refine ⟨?_, fun hcon => absurd hcon himp,
                fun _ => Or.inr ⟨f, s, hpF, hpS, ?_⟩⟩
              · rw [hts]
                exact List.chain'_singleton _
              · intro sig hsig
                rw [hts] at hsig
                simp only [List.head?_cons, Option.some.injEq] at hsig
                rw [← hsig]
                exact iff_of_true rfl h1.1
            · refine ⟨?_, fun hcon => absurd hcon himp,
                fun _ => Or.inr ⟨f, s, hpF, hpS, ?_⟩⟩
              · rw [hts]
                exact List.chain'_singleton _
              · intro sig hsig
                rw [hts] at hsig
                simp only [List.head?_cons, Option.some.injEq] at hsig
                rw [← hsig]
                exact iff_of_false (fun hx => hentry_ne hx.symm) (not_lt.mpr h2.1)
            · exact ⟨hts ▸ List.chain'_nil, fun hcon => absurd hcon himp,
                fun _ => Or.inl hts⟩
      · -- something recorded: the previous SMAs are stored and coupled
        rw [hpf, hps] at hts
        dsimp only at hts
        split_ifs at hts with h1 h2
        · -- a golden cross fires: previous regime was bearish
          refine ⟨?_, fun hcon => absurd hcon himp,
            fun _ => Or.inr ⟨f, s, hpF, hpS, ?_⟩⟩
          · rw [hts]
            refine List.chain'_cons'.mpr ⟨?_, hchain⟩
            intro sig0 hs0
            have hc0 := hcoup sig0 hs0
            have hnot : ¬ps < pf := not_lt.mpr h1.2
            intro he
            exact hnot (hc0.mp he.symm)
          · intro sig hsig
            rw [hts] at hsig
            simp only [List.head?_cons, Option.some.injEq] at hsig
            rw [← hsig]
            exact iff_of_true rfl h1.1
        · -- a death cross fires: previous regime was bullish
          refine ⟨?_, fun hcon => absurd hcon himp,
            fun _ => Or.inr ⟨f, s, hpF, hpS, ?_⟩⟩
          · rw [hts]
            refine List.chain'_cons'.mpr ⟨?_, hchain⟩
            intro sig0 hs0
            have hc0 := hcoup sig0 hs0
            have hs0e : sig0.action = SignalAction.entry := hc0.mpr h2.2
            rw [hs0e]
            exact fun hx => hentry_ne hx.symm
          · intro sig hsig
            rw [hts] at hsig
            simp only [List.head?_cons, Option.some.injEq] at hsig
            rw [← hsig]
            exact iff_of_false (fun hx => hentry_ne hx.symm) (not_lt.mpr h2.1)
        · -- no cross: the regime did not change
          refine ⟨hts ▸ hchain, fun hcon => absurd hcon himp,
            fun _ => Or.inr ⟨f, s, hpF, hpS, ?_⟩⟩
          intro sig hsig
          rw [hts] at hsig
          have hiff : ps < pf ↔ s < f := by
            constructor
            · intro hp
              by_contra hsf
              exact h2 ⟨not_lt.mp hsf, hp⟩
            · intro hsf
              by_contra hp
              exact h1 ⟨hsf, not_lt.mp hp⟩
          exact (hcoup sig hsig).trans hiff

theorem altInvariant_simUpTo (tanhF : ℚ → ℚ) (bars : List Bar)
    (fv sv ra C : ℚ) (k : ℕ) :
    altInvariant ((correctedSlowP (decodeFastMA fv) (decodeSlowMA sv)).toNat - 1) k
      (simUpTo tanhF ra C
        (zippedBars bars (decodeFastMA fv).toNat
          (correctedSlowP (decodeFastMA fv) (decodeSlowMA sv)).toNat) k) := by
  have hfl := fastP_lt_correctedSlowP fv sv
  have hf5 := decodeFastMA_ge fv
  have hs15 := correctedSlowP_ge fv sv
  induction k with
  | zero =>
    exact ⟨List.chain'_nil, fun _ => ⟨rfl, rfl⟩, fun h => absurd h (Nat.not_lt_zero _)⟩
  | succ k ih =>
    rw [simUpTo_succ]
    cases hget : (zippedBars bars (decodeFastMA fv).toNat
        (correctedSlowP (decodeFastMA fv) (decodeSlowMA sv)).toNat).get? k with
    | none => exact altInvariant_mono _ _ _ ih
    | some x =>
      have hzlen : (zippedBars bars (decodeFastMA fv).toNat
          (correctedSlowP (decodeFastMA fv) (decodeSlowMA sv)).toNat).length =
          bars.length := by
        simp [zippedBars, computeSMA_length]
      have hklen : k < bars.length := by
        obtain ⟨h, -⟩ := List.get?_eq_some.mp hget
        omega
      obtain ⟨b, hb, h2⟩ := zippedBars_get? bars (decodeFastMA fv).toNat
        (correctedSlowP (decodeFastMA fv) (decodeSlowMA sv)).toNat k hklen
      rw [hget] at h2
      have hx := Option.some.inj h2
      subst hx
      refine altInvariant_step tanhF ra _ k _ _ ?_ ?_ ih
      · intro hkm
        dsimp only
        rw [if_pos (by omega)]
      · intro hmk
        have hnf : ¬(k + 1 < (decodeFastMA fv).toNat) := by omega
        have hns : ¬(k + 1 <
            (correctedSlowP (decodeFastMA fv) (decodeSlowMA sv)).toNat) := by omega
        dsimp only
        rw [if_neg hnf, if_neg hns]
        exact ⟨_, _, rfl⟩

/-- C10: in every `BacktestResult`, the recorded trade signals strictly
alternate in chronological order between entry and exit actions — no two
consecutive signals have the same action (the first may be either). -/
theorem tradeSignals_alternate (tanhF sqrtF : ℚ → ℚ) (bars : List Bar)
    (fv sv ra C : ℚ) :
    List.Chain' (fun a b => a.action ≠ b.action)
      (match runBacktest tanhF sqrtF bars fv sv ra C with
       | some r => r.tradeSignals
       | none => []) := by
  by_cases hlen : bars.length < 50
  · rw [runBacktest, if_pos hlen]
    exact List.chain'_nil
  · rw [runBacktest, if_neg hlen]
    show List.Chain' (fun a b => a.action ≠ b.action)
      ((btFinalState tanhF bars fv sv ra C).tradeSignals.reverse)
    rw [List.chain'_reverse]
    exact List.Chain'.imp (fun a b h => Ne.symm h)
      (altInvariant_simUpTo tanhF bars fv sv ra C bars.length).1


-- ─── The cycle in terms of the named intermediates ───────────────────────────

theorem runGenerationCore_eq (tanhF sqrtF : ℚ → ℚ) (symbols : List String)
    (priceHistory : String → List Bar) (rand : ℕ → ℚ) (currentGen : ℕ)
    (agents : List Agent) (raw : List Agent)
    (h : (List.range (genCullCount tanhF sqrtF symbols priceHistory agents)).mapM
          (mkOffspringOne rand (genTopBreed tanhF sqrtF symbols priceHistory agents)
            (genMaxId agents) currentGen) = some raw) :
    runGenerationCore tanhF sqrtF symbols priceHistory rand currentGen agents =
      some { backtested := genBacktested tanhF sqrtF symbols priceHistory agents
             sorted := genSorted tanhF sqrtF symbols priceHistory agents
             cullCount := genCullCount tanhF sqrtF symbols priceHistory agents
             bottom := genBottom tanhF sqrtF symbols priceHistory agents
             topBreed := genTopBreed tanhF sqrtF symbols priceHistory agents
             avgBefore := genAvgBefore tanhF sqrtF symbols priceHistory agents
             offspring := genOffspring tanhF sqrtF symbols priceHistory raw
             survived := genSurvived tanhF sqrtF symbols priceHistory agents
             allNext := genSurvived tanhF sqrtF symbols priceHistory agents ++
               genOffspring tanhF sqrtF symbols priceHistory raw } := by
  unfold runGenerationCore
  dsimp only
  split
  · rename_i heq
    exact Option.noConfusion (h.symm.trans heq)
  · rename_i raw' heq
    have hr := Option.some.inj (h.symm.trans heq)
    subst hr
    rfl

-- ─── Pointwise facts ─────────────────────────────────────────────────────────

theorem applyResult_id (a : Agent) (r : BacktestResult) :
    (applyResult a r).id = a.id := rfl

theorem applyResult_status (a : Agent) (r : BacktestResult) :
    (applyResult a r).status = a.status := rfl

theorem genBacktested_map_id (tanhF sqrtF : ℚ → ℚ) (symbols : List String)
    (priceHistory : String → List Bar) (agents : List Agent) :
    (genBacktested tanhF sqrtF symbols priceHistory agents).map Agent.id =
      (genActive agents).map Agent.id := by
  unfold genBacktested genBtPairs
  rw [List.map_map, List.map_map]
  apply List.map_congr_left
  intro a _
  dsimp only [Function.comp]
  cases backtestAgent tanhF sqrtF symbols priceHistory a <;> rfl

theorem genSorted_perm (tanhF sqrtF : ℚ → ℚ) (symbols : List String)
    (priceHistory : String → List Bar) (agents : List Agent) :
    (genSorted tanhF sqrtF symbols priceHistory agents).Perm
      (genBacktested tanhF sqrtF symbols priceHistory agents) :=
  List.mergeSort_perm _ _

theorem genSorted_length (tanhF sqrtF : ℚ → ℚ) (symbols : List String)
    (priceHistory : String → List Bar) (agents : List Agent) :
    (genSorted tanhF sqrtF symbols priceHistory agents).length =
      (agents.filter isAlive).length := by
  rw [(genSorted_perm tanhF sqrtF symbols priceHistory agents).length_eq]
  unfold genBacktested genBtPairs genActive
  rw [List.length_map, List.length_map]

theorem genOffspringOne_status (tanhF sqrtF : ℚ → ℚ) (symbols : List String)
    (priceHistory : String → List Bar) (a : Agent) :
    (genOffspringOne tanhF sqrtF symbols priceHistory a).status = a.status := by
  unfold genOffspringOne
  cases backtestAgent tanhF sqrtF symbols priceHistory a <;> rfl

theorem genSurvivedOne_status (tanhF sqrtF : ℚ → ℚ) (symbols : List String)
    (priceHistory : String → List Bar) (agents : List Agent) (a : Agent) :
    (genSurvivedOne tanhF sqrtF symbols priceHistory agents a).status =
      if (genCullIds tanhF sqrtF symbols priceHistory agents).contains a.id then
        AgentStatus.extinct
      else if a.status = AgentStatus.newborn then AgentStatus.active else a.status := by
  unfold genSurvivedOne
  by_cases hc : (genCullIds tanhF sqrtF symbols priceHistory agents).contains a.id = true
  · simp only [if_pos hc]
  · simp only [if_neg hc]
    cases (genBacktested tanhF sqrtF symbols priceHistory agents).find?
        fun b => b.id = a.id <;> rfl

theorem genSurvivedOne_alive (tanhF sqrtF : ℚ → ℚ) (symbols : List String)
    (priceHistory : String → List Bar) (agents : List Agent) (a : Agent) :
    isAlive (genSurvivedOne tanhF sqrtF symbols priceHistory agents a) =
      (isAlive a && !((genCullIds tanhF sqrtF symbols priceHistory agents).contains a.id)) := by
  simp only [isAlive]
  rw [genSurvivedOne_status]
  cases hc : (genCullIds tanhF sqrtF symbols priceHistory agents).contains a.id <;>
    cases a.status <;> rfl

theorem genSurvivedOne_extinct (tanhF sqrtF : ℚ → ℚ) (symbols : List String)
    (priceHistory : String → List Bar) (agents : List Agent) (a : Agent) :
    (decide ((genSurvivedOne tanhF sqrtF symbols priceHistory agents a).status =
        AgentStatus.extinct)) =
      ((genCullIds tanhF sqrtF symbols priceHistory agents).contains a.id ||
        decide (a.status = AgentStatus.extinct)) := by
  rw [genSurvivedOne_status]
  cases hc : (genCullIds tanhF sqrtF symbols priceHistory agents).contains a.id <;>
    cases a.status <;> rfl

-- ─── Generic counting lemmas ─────────────────────────────────────────────────

theorem countP_split {α : Type} (l : List α) (p q : α → Bool) :
    l.countP p = l.countP (fun a => p a && q a) + l.countP (fun a => p a && !q a) := by
  induction l with
  | nil => rfl
  | cons x xs ih =>
    simp only [List.countP_cons]
    rw [ih]
    cases hp : p x <;> cases hq : q x <;> simp [hp, hq] <;> omega

theorem countP_or_disj {α : Type} (l : List α) (p q : α → Bool)
    (h : ∀ a ∈ l, p a = true → q a = false) :
    l.countP (fun a => p a || q a) = l.countP p + l.countP q := by
  induction l with
  | nil => rfl
  | cons x xs ih =>
    simp only [List.countP_cons]
    rw [ih (fun a ha => h a (List.mem_cons_of_mem _ ha))]
    cases hp : p x <;> cases hq : q x
    · simp [hp, hq]
    · simp [hp, hq]; omega
    · simp [hp, hq]; omega
    · have hf := h x (List.mem_cons_self x xs) hp
      rw [hq] at hf
      exact Bool.noConfusion hf

theorem countP_mem_eq_length {α : Type} [DecidableEq α] (l s : List α)
    (hl : l.Nodup) (hs : s.Nodup) (hsub : ∀ x ∈ s, x ∈ l) :
    l.countP (fun x => s.contains x) = s.length := by
  rw [List.countP_eq_length_filter]
  have hperm : (l.filter fun x => s.contains x).Perm s := by
    rw [List.perm_ext_iff_of_nodup (hl.filter _) hs]
    intro x
    simp only [List.mem_filter, List.elem_iff]
    exact ⟨fun h => h.2, fun h => ⟨hsub x h, h⟩⟩
  exact hperm.length_eq

-- ─── Offspring construction always succeeds on a nonempty pool ───────────────

theorem mkOffspringOne_status (rand : ℕ → ℚ) (topBreed : List Agent)
    (maxId currentGen i : ℕ) (a : Agent)
    (h : mkOffspringOne rand topBreed maxId currentGen i = some a) :
    a.status = AgentStatus.newborn := by
  unfold mkOffspringOne at h
  dsimp only at h
  cases h1 : topBreed.get? (⌊rand (i * 12) * (topBreed.length : ℚ)⌋).toNat with
  | none =>
    rw [h1] at h
    exact Option.noConfusion h
  | some p1 =>
    rw [h1] at h
    cases h2 : topBreed.get? (⌊rand (i * 12 + 1) * (topBreed.length : ℚ)⌋).toNat with
    | none =>
      rw [h2] at h
      exact Option.noConfusion h
    | some p2 =>
      rw [h2] at h
      have hr := Option.some.inj h
      rw [← hr]

theorem mkOffspringOne_isSome (rand : ℕ → ℚ) (hrand : ∀ n, 0 ≤ rand n ∧ rand n < 1)
    (topBreed : List Agent) (hne : 0 < topBreed.length) (maxId currentGen i : ℕ) :
    ∃ a, mkOffspringOne rand topBreed maxId currentGen i = some a ∧
      a.status = AgentStatus.newborn := by
  have hidx : ∀ n : ℕ, (⌊rand n * (topBreed.length : ℚ)⌋).toNat < topBreed.length := by
    intro n
    obtain ⟨h0, h1⟩ := hrand n
    have hL : (0:ℚ) < (topBreed.length : ℚ) := by exact_mod_cast hne
    have hub : rand n * (topBreed.length : ℚ) < (topBreed.length : ℚ) := by
      have := mul_lt_mul_of_pos_right h1 hL
      rwa [one_mul] at this
    have hfloor : ⌊rand n * (topBreed.length : ℚ)⌋ < (topBreed.length : ℤ) := by
      rw [Int.floor_lt]
      exact_mod_cast hub
    have hfl0 : 0 ≤ ⌊rand n * (topBreed.length : ℚ)⌋ :=
      Int.floor_nonneg.mpr (mul_nonneg h0 hL.le)
    omega
  have hs : ∃ a, mkOffspringOne rand topBreed maxId currentGen i = some a := by
    unfold mkOffspringOne
    dsimp only
    rw [List.get?_eq_get (hidx (i * 12)), List.get?_eq_get (hidx (i * 12 + 1))]
    exact ⟨_, rfl⟩
  obtain ⟨a, ha⟩ := hs
  exact ⟨a, ha, mkOffspringOne_status rand topBreed maxId currentGen i a ha⟩

theorem mapM_some_of_forall {α : Type} (P : α → Prop) (f : ℕ → Option α)
    (l : List ℕ) (h : ∀ i ∈ l, ∃ a, f i = some a ∧ P a) :
    ∃ out, l.mapM f = some out ∧ out.length = l.length ∧ ∀ a ∈ out, P a := by
  induction l with
  | nil => exact ⟨[], rfl, rfl, by simp⟩
  | cons x xs ih =>
    obtain ⟨a, ha, hPa⟩ := h x (List.mem_cons_self x xs)
    obtain ⟨out, hout, hlen, hP⟩ := ih (fun i hi => h i (List.mem_cons_of_mem _ hi))
    refine ⟨a :: out, ?_, by simp [hlen], ?_⟩
    · rw [List.mapM_cons, ha, hout]
      rfl
    · intro b hb
      rcases List.mem_cons.mp hb with rfl | hb
      · exact hPa
      · exact hP b hb

-- ─── C3 ──────────────────────────────────────────────────────────────────────

/-- C3: for every population with at least one live agent, distinct agent ids,
and a random stream in `[0, 1)`, one generation cycle succeeds, culls exactly
`max(1, floor(0.20 × N))` agents, breeds exactly that many newborn offspring,
and leaves the number of non-extinct agents unchanged at `N`. -/
theorem runGeneration_counts (tanhF sqrtF : ℚ → ℚ) (symbols : List String)
    (priceHistory : String → List Bar) (rand : ℕ → ℚ) (currentGen : ℕ)
    (agents : List Agent)
    (hrand : ∀ n, 0 ≤ rand n ∧ rand n < 1)
    (hN : 1 ≤ (agents.filter isAlive).length)
    (hids : (agents.map Agent.id).Nodup) :
    ∃ out, runGenerationCore tanhF sqrtF symbols priceHistory rand currentGen agents =
        some out ∧
      out.cullCount = max 1 ((agents.filter isAlive).length / 5) ∧
      out.offspring.length = out.cullCount ∧
      (∀ a ∈ out.offspring, a.status = AgentStatus.newborn) ∧
      out.allNext.countP (fun a => a.status = AgentStatus.extinct) =
        agents.countP (fun a => a.status = AgentStatus.extinct) + out.cullCount ∧
      out.allNext.countP isAlive = (agents.filter isAlive).length := by
  have hsl := genSorted_length tanhF sqrtF symbols priceHistory agents
  have hccle : genCullCount tanhF sqrtF symbols priceHistory agents ≤
      (agents.filter isAlive).length := by
    unfold genCullCount cullCountOf
    rw [hsl]
    omega
  have htb : 0 < (genTopBreed tanhF sqrtF symbols priceHistory agents).length := by
    unfold genTopBreed
    rw [List.length_take, hsl]
    omega
  obtain ⟨raw, hraw, hrawlen, hrawP⟩ :=
    mapM_some_of_forall (fun a => a.status = AgentStatus.newborn)
      (mkOffspringOne rand (genTopBreed tanhF sqrtF symbols priceHistory agents)
        (genMaxId agents) currentGen)
      (List.range (genCullCount tanhF sqrtF symbols priceHistory agents))
      (fun i _ => mkOffspringOne_isSome rand hrand _ htb _ _ i)
  have hpermIds : ((genSorted tanhF sqrtF symbols priceHistory agents).map Agent.id).Perm
      ((genActive agents).map Agent.id) := by
    have h := (genSorted_perm tanhF sqrtF symbols priceHistory agents).map Agent.id
    rwa [genBacktested_map_id] at h
  have hactSub : ((genActive agents).map Agent.id).Sublist (agents.map Agent.id) :=
    List.Sublist.map Agent.id (List.filter_sublist agents)
  have hactNodup : ((genActive agents).map Agent.id).Nodup :=
    List.Nodup.sublist hactSub hids
  have hsortNodup :
      ((genSorted tanhF sqrtF symbols priceHistory agents).map Agent.id).Nodup :=
    (hpermIds.nodup_iff).mpr hactNodup
  have hcullSublist : (genCullIds tanhF sqrtF symbols priceHistory agents).Sublist
      ((genSorted tanhF sqrtF symbols priceHistory agents).map Agent.id) :=
    List.Sublist.map Agent.id (List.drop_sublist _ _)
  have hcullNodup : (genCullIds tanhF sqrtF symbols priceHistory agents).Nodup :=
    List.Nodup.sublist hcullSublist hsortNodup
  have hcullSub : ∀ x ∈ genCullIds tanhF sqrtF symbols priceHistory agents,
      x ∈ agents.map Agent.id := fun x hx =>
    hactSub.subset (hpermIds.mem_iff.mp (hcullSublist.subset hx))
  have hcullLen : (genCullIds tanhF sqrtF symbols priceHistory agents).length =
      genCullCount tanhF sqrtF symbols priceHistory agents := by
    unfold genCullIds genBottom
    rw [List.length_map, List.length_drop]
    omega
  have hculled : ∀ a ∈ agents,
      (genCullIds tanhF sqrtF symbols priceHistory agents).contains a.id = true →
      isAlive a = true := by
    intro a ha hc
    have hmem : a.id ∈ genCullIds tanhF sqrtF symbols priceHistory agents :=
      List.elem_iff.mp hc
    have h2 : a.id ∈ (genActive agents).map Agent.id :=
      hpermIds.mem_iff.mp (hcullSublist.subset hmem)
    obtain ⟨b, hb, hbid⟩ := List.mem_map.mp h2
    have hba : b = a :=
      List.inj_on_of_nodup_map hids (List.mem_of_mem_filter hb) ha hbid
    rw [← hba]
    exact List.of_mem_filter hb
  have hcontains : agents.countP
      (fun a => (genCullIds tanhF sqrtF symbols priceHistory agents).contains a.id) =
      genCullCount tanhF sqrtF symbols priceHistory agents := by
    have h1 : (agents.map Agent.id).countP
        (fun i => (genCullIds tanhF sqrtF symbols priceHistory agents).contains i) =
        agents.countP
          (fun a => (genCullIds tanhF sqrtF symbols priceHistory agents).contains a.id) := by
      rw [List.countP_map]
      rfl
    rw [← h1,
      countP_mem_eq_length (agents.map Agent.id)
        (genCullIds tanhF sqrtF symbols priceHistory agents) hids hcullNodup hcullSub,
      hcullLen]
  have hoffLen : (genOffspring tanhF sqrtF symbols priceHistory raw).length =
      genCullCount tanhF sqrtF symbols priceHistory agents := by
    unfold genOffspring
    rw [List.length_map, hrawlen, List.length_range]
  have hoffNew : ∀ a ∈ genOffspring tanhF sqrtF symbols priceHistory raw,
      a.status = AgentStatus.newborn := by
    intro a ha
    obtain ⟨b, hb, rfl⟩ := List.mem_map.mp ha
    rw [genOffspringOne_status]
    exact hrawP b hb
  refine ⟨_, runGenerationCore_eq tanhF sqrtF symbols priceHistory rand currentGen
    agents raw hraw, ?_, ?_, ?_, ?_, ?_⟩
  · show genCullCount tanhF sqrtF symbols priceHistory agents =
      max 1 ((agents.filter isAlive).length / 5)
    unfold genCullCount cullCountOf
    rw [hsl]
  · exact hoffLen
  · exact hoffNew
  · show ((genSurvived tanhF sqrtF symbols priceHistory agents) ++
        (genOffspring tanhF sqrtF symbols priceHistory raw)).countP
        (fun a => a.status = AgentStatus.extinct) =
      agents.countP (fun a => a.status = AgentStatus.extinct) +
        genCullCount tanhF sqrtF symbols priceHistory agents
    rw [List.countP_append]
    have hoff0 : (genOffspring tanhF sqrtF symbols priceHistory raw).countP
        (fun a => decide (a.status = AgentStatus.extinct)) = 0 := by
      rw [List.countP_eq_zero]
      intro a ha
      simp [hoffNew a ha]
    have hsurvExt : (genSurvived tanhF sqrtF symbols priceHistory agents).countP
        (fun a => decide (a.status = AgentStatus.extinct)) =
        agents.countP (fun a => decide (a.status = AgentStatus.extinct)) +
          genCullCount tanhF sqrtF symbols priceHistory agents := by
      unfold genSurvived
      rw [List.countP_map]
      have hcongr : agents.countP
          ((fun a => decide (a.status = AgentStatus.extinct)) ∘
            genSurvivedOne tanhF sqrtF symbols priceHistory agents) =
          agents.countP
            (fun a => (genCullIds tanhF sqrtF symbols priceHistory agents).contains a.id ||
              decide (a.status = AgentStatus.extinct)) := by
        apply List.countP_congr
        intro a _
        rw [Function.comp_apply, genSurvivedOne_extinct]
      rw [hcongr, countP_or_disj]
      · rw [hcontains]
        omega
      · intro a ha hc
        have halive := hculled a ha hc
        have hne : a.status ≠ AgentStatus.extinct := by
          unfold isAlive at halive
          exact of_decide_eq_true halive
        exact decide_eq_false hne
    rw [hsurvExt, hoff0]
    omega
  · show ((genSurvived tanhF sqrtF symbols priceHistory agents) ++
        (genOffspring tanhF sqrtF symbols priceHistory raw)).countP isAlive =
      (agents.filter isAlive).length
    rw [List.countP_append]
    have hoffAlive : (genOffspring tanhF sqrtF symbols priceHistory raw).countP isAlive =
        genCullCount tanhF sqrtF symbols priceHistory agents := by
      rw [← hoffLen]
      apply List.countP_eq_length.mpr
      intro a ha
      simp [isAlive, hoffNew a ha]
    have hsurvAlive : (genSurvived tanhF sqrtF symbols priceHistory agents).countP isAlive =
        (agents.filter isAlive).length -
          genCullCount tanhF sqrtF symbols priceHistory agents := by
      unfold genSurvived
      rw [List.countP_map]
      have hcongr : agents.countP
          (isAlive ∘ genSurvivedOne tanhF sqrtF symbols priceHistory agents) =
          agents.countP (fun a => isAlive a &&
            !((genCullIds tanhF sqrtF symbols priceHistory agents).contains a.id)) := by
        apply List.countP_congr
        intro a _
        rw [Function.comp_apply, genSurvivedOne_alive]
      rw [hcongr]
      have hsplit := countP_split agents isAlive
        (fun a => (genCullIds tanhF sqrtF symbols priceHistory agents).contains a.id)
      have hx : agents.countP (fun a => isAlive a &&
          (genCullIds tanhF sqrtF symbols priceHistory agents).contains a.id) =
          agents.countP
            (fun a => (genCullIds tanhF sqrtF symbols priceHistory agents).contains a.id) := by
        apply List.countP_congr
        intro a ha
        cases hc : (genCullIds tanhF sqrtF symbols priceHistory agents).contains a.id
        · simp
        · simp [hculled a ha hc]
      have hflt := List.countP_eq_length_filter isAlive agents
      rw [hx, hcontains] at hsplit
      omega
    rw [hsurvAlive, hoffAlive]
    omega

/-- Witness for C3 on a population of 10 active agents (the spec scenario:
2 culled, 2 born, population still 10). -/
theorem runGeneration_counts_witness :
    ((∀ n : ℕ, (0:ℚ) ≤ 0 ∧ (0:ℚ) < 1) ∧
      1 ≤ (witnessAgents10.filter isAlive).length ∧
      (witnessAgents10.map Agent.id).Nodup) ∧
    ∃ out, runGenerationCore (fun _ => 0) (fun _ => 0) [] (fun _ => [])
        (fun _ => 0) 0 witnessAgents10 = some out ∧
      out.cullCount = max 1 ((witnessAgents10.filter isAlive).length / 5) ∧
      out.offspring.length = out.cullCount ∧
      (∀ a ∈ out.offspring, a.status = AgentStatus.newborn) ∧
      out.allNext.countP (fun a => a.status = AgentStatus.extinct) =
        witnessAgents10.countP (fun a => a.status = AgentStatus.extinct) + out.cullCount ∧
      out.allNext.countP isAlive = (witnessAgents10.filter isAlive).length :=
  ⟨⟨fun _ => ⟨le_refl 0, by norm_num⟩, by decide, by decide⟩,
   runGeneration_counts (fun _ => 0) (fun _ => 0) [] (fun _ => []) (fun _ => 0) 0
     witnessAgents10 (fun _ => ⟨le_refl 0, by norm_num⟩) (by decide) (by decide)⟩


end FalseMarkets
